import Mathlib

/-!
Verification of the zappy-seo-engine content pipeline.

This file embeds, as executable Lean definitions, the parts of the
TypeScript repository that the verified properties are about:

* the JSON extraction / repair / parse pipeline of
  `src/content/utils/gemini.ts` (`repairJson`, `parseJSON`);
* the dual-provider dispatcher `callSmartAIJSON` of
  `src/content/utils/ai.ts` (lines 19-44);
* the provider client `callClaude` with its heartbeat callback;
* the agents: `judgeAgent` / `synthesizeDrafts` (`agents/judge.ts`),
  `runCritique` with the two reviewer agents (`agents/critics.ts`),
  `writeArticle` / `revisionWriter` (the writers module), the research,
  synthesizer and SEO-finalizer agents;
* the `ContentOrchestrator` state machine of `src/content/orchestrator.ts`
  with its six phases and the bounded critique loop.

Network calls are modelled as oracles: each live model invocation becomes a
scripted `Except String (result x tokens)` value supplied through an
environment, so a run of the embedded pipeline is a pure function of those
scripted outcomes.  A ghost trace records every call actually made together
with the token usage that call reported, which is what the token-accounting
property quantifies over.  JavaScript `Date` values, `console.log` output and
the `logProgress` helper (which only writes to the console) are not observable
by any verified property and are omitted.
-/

set_option maxRecDepth 4096

/-- Token usage as reported by a provider (`usage.total_tokens`). -/
abbrev Tokens := Nat

/-- `AgentResult<T>` from `content/types.ts`:
`{success:true, data, usage?} | {success:false, error}`.
The `usage` field is optional because some agents (the writers module)
return success results without any usage metadata. -/
inductive AgentResult (α : Type) where
  | ok (data : α) (usage : Option Tokens)
  | err (error : String)
deriving DecidableEq

/-- Token count an `AgentResult` reports: `result.usage?.total_tokens || 0`. -/
def AgentResult.usageTokens : AgentResult α → Tokens
  | .ok _ u => u.getD 0
  | .err _ => 0

/-- A ghost record of one model call actually made: the agent name and the
token usage that call reported (0 when the call failed or reported none). -/
abbrev CallEvent := String × Nat

/-- Sum of the token usage reported by a list of calls. -/
def sumReported (t : List CallEvent) : Nat :=
  (t.map Prod.snd).sum

/-- Number of calls to a given agent in a trace. -/
def countCalls (name : String) (t : List CallEvent) : Nat :=
  (t.filter (fun ev => ev.1 = name)).length

/-- JavaScript `hay.includes(needle)`. -/
def jsIncludes (hay needle : String) : Bool :=
  decide (needle.toList <:+: hay.toList)

-- ===========================================================================
-- Dual-provider dispatcher - src/content/utils/ai.ts, lines 19-44
-- ===========================================================================

/-- Which provider served a request (`provider: "claude" | "gemini"`). -/
inductive Provider where
  | claude
  | gemini
deriving DecidableEq

/-- The error classification of `callSmartAIJSON`:
`errorStr.includes("400") && errorStr.includes("credit balance is too low")`
(credit exhaustion) or `errorStr.includes("429")` (rate limiting). -/
def isFallbackError (errorStr : String) : Bool :=
  (jsIncludes errorStr "400" && jsIncludes errorStr "credit balance is too low")
    || jsIncludes errorStr "429"

/-- `callSmartAIJSON` (`utils/ai.ts` 19-44): try Claude; on a credit-exhaustion
or rate-limit error fall back to Gemini; rethrow any other error.  The two
provider calls are oracles.  The second component of the result records
whether the Gemini fallback was actually invoked. -/
def callSmartAIJSON (claudeCall geminiCall : Except String (α × Tokens)) :
    Except String (α × Tokens × Provider) × Bool :=
  match claudeCall with
  | .ok (data, usage) => (.ok (data, usage, .claude), false)
  | .error e =>
    if isFallbackError e then
      (match geminiCall with
       | .ok (data, usage) => .ok (data, usage, .gemini)
       | .error e2 => .error e2, true)
    else
      (.error e, false)

-- ===========================================================================
-- Provider client with heartbeat - callClaude (utils/claude.ts)
-- ===========================================================================

/-- A heartbeat callback `(agentName, status) => Promise<void>`; a throwing
callback is modelled as returning `Except.error`. -/
abbrev HeartbeatFn := String → String → Except String Unit

/-- `await heartbeat(agentName, status).catch(() => { })`: the callback is
invoked and any rejection is swallowed. -/
def swallowHeartbeat (heartbeat : Option HeartbeatFn) (agentName status : String) : Unit :=
  match heartbeat with
  | none => ()
  | some f =>
    match f agentName status with
    | .ok _ => ()
    | .error _ => ()

/-- `callClaude` (utils/claude.ts): heartbeat before the provider call,
the provider call itself (an oracle returning response text and
`input_tokens + output_tokens`), heartbeat after; provider errors rethrow. -/
def callClaude (providerCall : Except String (String × Tokens))
    (heartbeat : Option HeartbeatFn) (agentName : String) :
    Except String (String × Tokens) :=
  let _hb1 := swallowHeartbeat heartbeat agentName "calling AI..."
  match providerCall with
  | .error e => .error e
  | .ok (text, totalTokens) =>
    let _hb2 := swallowHeartbeat heartbeat agentName
      ("AI response received (" ++ toString totalTokens ++ " tokens)")
    .ok (text, totalTokens)

-- ===========================================================================
-- JSON values and JSON.parse - for src/content/utils/gemini.ts
-- ===========================================================================

/-- A parsed JSON value.  Numbers are kept as their source lexeme: no claim
computes with numeric values, and this keeps the embedding away from
floating-point arithmetic. -/
inductive JsonVal where
  | null
  | bool (b : Bool)
  | num (lexeme : String)
  | str (s : String)
  | arr (elems : List JsonVal)
  | obj (fields : List (String × JsonVal))

/-- JSON interelement whitespace (the only whitespace `JSON.parse` accepts). -/
def isJsonWs (c : Char) : Bool :=
  c = ' ' || c = '\t' || c = '\n' || c = '\r'

/-- Skip JSON whitespace. -/
def skipWs : List Char → List Char
  | c :: r => if isJsonWs c then skipWs r else c :: r
  | [] => []

/-- Hexadecimal digit test. -/
def isHexDigitChar (c : Char) : Bool :=
  c.isDigit || ('a' ≤ c && c ≤ 'f') || ('A' ≤ c && c ≤ 'F')

/-- Value of a hexadecimal digit. -/
def hexVal (c : Char) : Nat :=
  if c.isDigit then c.toNat - '0'.toNat
  else if c ≤ 'F' then c.toNat - 'A'.toNat + 10
  else c.toNat - 'a'.toNat + 10

/-- Decoding of a single-character JSON escape sequence. -/
def escChar (e : Char) : Option Char :=
  if e = '"' then some '"'
  else if e = '\\' then some '\\'
  else if e = '/' then some '/'
  else if e = 'b' then some '\x08'
  else if e = 'f' then some '\x0c'
  else if e = 'n' then some '\n'
  else if e = 'r' then some '\r'
  else if e = 't' then some '\t'
  else none

/-- Decode the body of a JSON string literal (after the opening quote),
returning the decoded characters and the input after the closing quote.
`JSON.parse` rejects unescaped control characters below U+0020. -/
def parseStringBody : List Char → Except String (List Char × List Char)
  | [] => .error "Unterminated string in JSON"
  | '"' :: r => .ok ([], r)
  | '\\' :: 'u' :: h1 :: h2 :: h3 :: h4 :: r =>
    if isHexDigitChar h1 && isHexDigitChar h2 && isHexDigitChar h3 && isHexDigitChar h4 then
      let n := ((hexVal h1 * 16 + hexVal h2) * 16 + hexVal h3) * 16 + hexVal h4
      match parseStringBody r with
      | .error m => .error m
      | .ok (cs, rest) => .ok (Char.ofNat n :: cs, rest)
    else .error "Bad Unicode escape in JSON"
  | '\\' :: e :: r =>
    (match escChar e with
     | none => .error "Bad escaped character in JSON"
     | some c =>
       match parseStringBody r with
       | .error m => .error m
       | .ok (cs, rest) => .ok (c :: cs, rest))
  | c :: r =>
    if c.toNat < 0x20 then .error "Bad control character in JSON string literal"
    else
      match parseStringBody r with
      | .error m => .error m
      | .ok (cs, rest) => .ok (c :: cs, rest)

/-- Lex a JSON number at the head of the input (strict `JSON.parse` grammar:
`-? (0 | [1-9][0-9]*) ('.' [0-9]+)? ([eE] [+-]? [0-9]+)?`). -/
def parseNumber (l : List Char) : Except String (List Char × List Char) :=
  let (sign, r1) := match l with
    | '-' :: r => ([('-' : Char)], r)
    | _ => ([], l)
  let intPart : Except String (List Char × List Char) :=
    match r1 with
    | '0' :: r => .ok (['0'], r)
    | c :: r =>
      if c.isDigit then
        let ds := r.takeWhile Char.isDigit
        .ok (c :: ds, r.drop ds.length)
      else .error "Unexpected token in JSON"
    | [] => .error "Unexpected end of JSON input"
  match intPart with
  | .error m => .error m
  | .ok (ip, r2) =>
    let (fp, r3) : List Char × List Char :=
      match r2 with
      | '.' :: r =>
        let ds := r.takeWhile Char.isDigit
        if ds.isEmpty then ([], r2) else ('.' :: ds, r.drop ds.length)
      | _ => ([], r2)
    if fp.isEmpty && (match r2 with | '.' :: _ => true | _ => false) then
      .error "Unexpected token in JSON"
    else
      let expPart : Except String (List Char × List Char) :=
        match r3 with
        | c :: r =>
          if c = 'e' || c = 'E' then
            let (es, r4) := match r with
              | s :: r' => if s = '+' || s = '-' then ([c, s], r') else ([c], r)
              | [] => ([c], r)
            let ds := r4.takeWhile Char.isDigit
            if ds.isEmpty then .error "Unexpected token in JSON"
            else .ok (es ++ ds, r4.drop ds.length)
          else .ok ([], r3)
        | [] => .ok ([], r3)
      match expPart with
      | .error m => .error m
      | .ok (ep, r5) => .ok (sign ++ ip ++ fp ++ ep, r5)

mutual

/-- Parse one JSON value at the head of the input (fueled recursion). -/
def parseValue : Nat → List Char → Except String (JsonVal × List Char)
  | 0, _ => .error "JSON nesting too deep"
  | fuel + 1, l =>
    match skipWs l with
    | 'n' :: 'u' :: 'l' :: 'l' :: r => .ok (.null, r)
    | 't' :: 'r' :: 'u' :: 'e' :: r => .ok (.bool true, r)
    | 'f' :: 'a' :: 'l' :: 's' :: 'e' :: r => .ok (.bool false, r)
    | '"' :: r =>
      match parseStringBody r with
      | .error m => .error m
      | .ok (cs, rest) => .ok (.str (String.mk cs), rest)
    | '[' :: r =>
      (match skipWs r with
       | ']' :: r2 => .ok (.arr [], r2)
       | _ =>
         match parseElems fuel r with
         | .error m => .error m
         | .ok (vs, rest) => .ok (.arr vs, rest))
    | '{' :: r =>
      (match skipWs r with
       | '}' :: r2 => .ok (.obj [], r2)
       | _ =>
         match parseMembers fuel r with
         | .error m => .error m
         | .ok (fs, rest) => .ok (.obj fs, rest))
    | c :: r =>
      if c = '-' || c.isDigit then
        match parseNumber (c :: r) with
        | .error m => .error m
        | .ok (lex, rest) => .ok (.num (String.mk lex), rest)
      else .error "Unexpected token in JSON"
    | [] => .error "Unexpected end of JSON input"

/-- Parse the elements of a non-empty JSON array (after the `[`). -/
def parseElems : Nat → List Char → Except String (List JsonVal × List Char)
  | 0, _ => .error "JSON nesting too deep"
  | fuel + 1, l =>
    match parseValue fuel l with
    | .error m => .error m
    | .ok (v, r) =>
      match skipWs r with
      | ',' :: r2 =>
        (match parseElems fuel r2 with
         | .error m => .error m
         | .ok (vs, rest) => .ok (v :: vs, rest))
      | ']' :: r2 => .ok ([v], r2)
      | _ => .error "Unexpected token in JSON"

/-- Parse the members of a non-empty JSON object (after the `{`). -/
def parseMembers : Nat → List Char → Except String (List (String × JsonVal) × List Char)
  | 0, _ => .error "JSON nesting too deep"
  | fuel + 1, l =>
    match skipWs l with
    | '"' :: r =>
      (match parseStringBody r with
       | .error m => .error m
       | .ok (key, r2) =>
         match skipWs r2 with
         | ':' :: r3 =>
           (match parseValue fuel r3 with
            | .error m => .error m
            | .ok (v, r4) =>
              match skipWs r4 with
              | ',' :: r5 =>
                (match parseMembers fuel r5 with
                 | .error m => .error m
                 | .ok (fs, rest) => .ok ((String.mk key, v) :: fs, rest))
              | '}' :: r5 => .ok ([(String.mk key, v)], r5)
              | _ => .error "Unexpected token in JSON")
         | _ => .error "Unexpected token in JSON")
    | _ => .error "Unexpected token in JSON"

end

/-- `JSON.parse`: parse a complete JSON text (one value surrounded by
optional whitespace). -/
def jsonParse (s : String) : Except String JsonVal :=
  let l := s.toList
  match parseValue (l.length + 1) l with
  | .error m => .error m
  | .ok (v, rest) =>
    match skipWs rest with
    | [] => .ok v
    | _ => .error "Unexpected non-whitespace character after JSON"


-- ===========================================================================
-- Response-text extraction - parseJSON in gemini.ts, lines 146-161
-- ===========================================================================

/-- JavaScript `\s` / `String.prototype.trim` whitespace (ASCII part). -/
def isJsWs (c : Char) : Bool :=
  c = ' ' || c = '\t' || c = '\n' || c = '\r' || c = '\x0b' || c = '\x0c'

/-- JavaScript `String.prototype.trim`. -/
def jsTrim (l : List Char) : List Char :=
  ((l.dropWhile isJsWs).reverse.dropWhile isJsWs).reverse

/-- Carriage return or line feed (the class `[\r\n]`). -/
def isNL (c : Char) : Bool :=
  c = '\r' || c = '\n'

/-- Does the input begin with one or more `[\r\n]` characters followed by
a ``` fence?  (The tail `[\r\n]+?``` ` of the code-block regex.) -/
def fenceAfterNLs : List Char → Bool
  | '`' :: '`' :: '`' :: _ => true
  | c :: rest => isNL c && fenceAfterNLs rest
  | [] => false

/-- Lazy capture of the code-block regex group `([\s\S]*?)`: the shortest
prefix whose remainder matches `[\r\n]+?``` `. -/
def codeBlockGroup : List Char → Option (List Char)
  | [] => none
  | c :: rest =>
    if fenceAfterNLs (c :: rest) then some []
    else (codeBlockGroup rest).map (fun g => c :: g)

/-- Match of the regex `/```(?:json)?[\r\n]+?([\s\S]*?)[\r\n]+?```/` anchored
at the start of the input: after the fence, the greedy optional `json` is
tried first; then at least one newline character, then the captured group. -/
def codeBlockAt (l : List Char) : Option (List Char) :=
  match l with
  | '`' :: '`' :: '`' :: rest =>
    let tryTail : List Char → Option (List Char) := fun r =>
      match r with
      | c :: r2 => if isNL c then codeBlockGroup r2 else none
      | [] => none
    (match rest with
     | 'j' :: 's' :: 'o' :: 'n' :: r2 =>
       (match tryTail r2 with
        | some g => some g
        | none => tryTail rest)
     | _ => tryTail rest)
  | _ => none

/-- First (leftmost) match of the code-block regex in the input. -/
def codeBlockMatch : List Char → Option (List Char)
  | [] => none
  | c :: rest =>
    match codeBlockAt (c :: rest) with
    | some g => some g
    | none => codeBlockMatch rest

/-- Prefix of the input up to and including its last `}`, if any. -/
def upToLastClose : List Char → Option (List Char)
  | [] => none
  | c :: r =>
    match upToLastClose r with
    | some p => some (c :: p)
    | none => if c = '}' then some ['}'] else none

/-- Match of the regex `/\{[\s\S]*\}/`: from the first `{` to the last `}`
strictly after it. -/
def braceMatch : List Char → Option (List Char)
  | [] => none
  | '{' :: rest => (upToLastClose rest).map (fun p => '{' :: p)
  | _ :: rest => braceMatch rest

/-- The extraction step of `parseJSON` (gemini.ts 146-161): prefer the first
fenced code block (trimmed group), else the first-`{`-to-last-`}` span, else
the trimmed response text. -/
def extractJson (text : String) : String :=
  match codeBlockMatch text.toList with
  | some g => String.mk (jsTrim g)
  | none =>
    match braceMatch text.toList with
    | some m => String.mk m
    | none => String.mk (jsTrim text.toList)

-- ===========================================================================
-- repairJson - gemini.ts, lines 103-141
-- ===========================================================================

/-- Structural delimiters of the negated classes `[^,}\]:\]]` used by the
quote-repair regexes. -/
def isDelimChar (c : Char) : Bool :=
  c = ',' || c = '}' || c = ']' || c = ':'

/-- The replace `/,(\s*[}\]])/g → '$1'` of step 1 of `repairJson`, as
structural recursion on a fuel that bounds the number of characters consumed
(every step consumes at least one, so `l.length` fuel never runs out). -/
def fixTrailingCommasGo : Nat → List Char → List Char
  | 0, l => l
  | _ + 1, [] => []
  | fuel + 1, ',' :: rest =>
    let ws := rest.takeWhile isJsWs
    (match rest.drop ws.length with
     | b :: rest2 =>
       if b = '}' || b = ']' then ws ++ b :: fixTrailingCommasGo fuel rest2
       else ',' :: fixTrailingCommasGo fuel rest
     | [] => ',' :: fixTrailingCommasGo fuel rest)
  | fuel + 1, c :: rest => c :: fixTrailingCommasGo fuel rest

/-- Drop every comma that is followed by optional whitespace and a closing
bracket (step 1 of `repairJson`). -/
def fixTrailingCommas (l : List Char) : List Char :=
  fixTrailingCommasGo l.length l

/-- The replace of control characters `[\x00-\x08\x0B-\x0C\x0E-\x1F\x7F]`
with a space (step 1 of `repairJson`). -/
def fixControlChars (l : List Char) : List Char :=
  l.map (fun c =>
    if c.toNat ≤ 0x08 || c.toNat = 0x0b || c.toNat = 0x0c
        || (0x0e ≤ c.toNat && c.toNat ≤ 0x1f) || c.toNat = 0x7f
    then ' ' else c)

/-- Length of the span matched by `(?:\\.|[^"\\])*"` (the string-literal body
followed by the closing `"`) at the head of the input, or `none` when that
pattern does not match here.  `\\.` fails when the escaped character is a line
terminator, because `.` does not match those. -/
def strLitSpan : List Char → Option Nat
  | [] => none
  | '"' :: _ => some 1
  | '\\' :: c :: r =>
    if isNL c then none else (strLitSpan r).map (fun n => 2 + n)
  | '\\' :: [] => none
  | _ :: r => (strLitSpan r).map (fun n => 1 + n)

/-- Escape literal newlines inside a captured string-literal group
(`group.replace(/\n/g, '\\n').replace(/\r/g, '\\r')`). -/
def escapeNLs (l : List Char) : List Char :=
  l.flatMap (fun c =>
    if c = '\n' then ['\\', 'n']
    else if c = '\r' then ['\\', 'r']
    else [c])

/-- Step 2 of `repairJson` as fueled structural recursion: the replace
`/"((?:\\.|[^"\\])*)"/g` that escapes literal newlines inside every matched
string literal (the captured group is the matched span without its closing
quote). -/
def fixStringNewlinesGo : Nat → List Char → List Char
  | 0, l => l
  | _ + 1, [] => []
  | fuel + 1, '"' :: rest =>
    (match strLitSpan rest with
     | some n => '"' :: escapeNLs (rest.take (n - 1)) ++ '"' :: fixStringNewlinesGo fuel (rest.drop n)
     | none => '"' :: fixStringNewlinesGo fuel rest)
  | fuel + 1, c :: rest => c :: fixStringNewlinesGo fuel rest

/-- Escape literal newlines inside every matched string literal (step 2 of
`repairJson`). -/
def fixStringNewlines (l : List Char) : List Char :=
  fixStringNewlinesGo l.length l

/-- Step 3a of `repairJson`: the replace
`/([a-zA-Z0-9])"([a-zA-Z0-9])/g → '$1\"$2'` escaping every quote surrounded
by alphanumerics. -/
def aggressiveQuoteFix1 : List Char → List Char
  | a :: '"' :: b :: rest =>
    if a.isAlphanum && b.isAlphanum then
      a :: '\\' :: '"' :: b :: aggressiveQuoteFix1 rest
    else
      a :: aggressiveQuoteFix1 ('"' :: b :: rest)
  | c :: rest => c :: aggressiveQuoteFix1 rest
  | [] => []

/-- Step 3b of `repairJson`: the replace
`/"(\s+[^,}\]:\]])/g → '\\"$1'`.  The greedy `\s+` backtracks: when the first
non-whitespace character after the quote is not a structural delimiter it is
captured with the whitespace; when it is a delimiter (or the input ends) the
match still succeeds if at least two whitespace characters are available, the
last of which is consumed by the negated class. -/
def aggressiveQuoteFix2Go : Nat → List Char → List Char
  | 0, l => l
  | _ + 1, [] => []
  | fuel + 1, '"' :: rest =>
    let ws := rest.takeWhile isJsWs
    if ws.length = 0 then '"' :: aggressiveQuoteFix2Go fuel rest
    else
      (match rest.drop ws.length with
       | c :: after2 =>
         if isDelimChar c then
           if 2 ≤ ws.length then
             '\\' :: '"' :: ws ++ aggressiveQuoteFix2Go fuel (c :: after2)
           else '"' :: aggressiveQuoteFix2Go fuel rest
         else '\\' :: '"' :: ws ++ c :: aggressiveQuoteFix2Go fuel after2
       | [] =>
         if 2 ≤ ws.length then '\\' :: '"' :: ws
         else '"' :: aggressiveQuoteFix2Go fuel rest)
  | fuel + 1, c :: rest => c :: aggressiveQuoteFix2Go fuel rest

/-- Entry point of step 3b with enough fuel for the whole input. -/
def aggressiveQuoteFix2 (l : List Char) : List Char :=
  aggressiveQuoteFix2Go l.length l

/-- Step 3c of `repairJson`: the replace
`/([a-z])\s*"(?!\s*[,}\]:\]])/gi → '$1\"'`: a quote preceded by a letter (and
optional whitespace, which the replacement drops) is escaped unless it is
followed by optional whitespace and a structural delimiter.  The negative
lookahead fails exactly when the first non-whitespace character after the
quote is a delimiter. -/
def aggressiveQuoteFix3Go : Nat → List Char → List Char
  | 0, l => l
  | _ + 1, [] => []
  | fuel + 1, c0 :: rest =>
    if c0.isAlpha then
      let ws := rest.takeWhile isJsWs
      (match rest.drop ws.length with
       | '"' :: after2 =>
         let ws2 := after2.takeWhile isJsWs
         let lookaheadHit : Bool :=
           match after2.drop ws2.length with
           | c :: _ => isDelimChar c
           | [] => false
         if lookaheadHit then c0 :: aggressiveQuoteFix3Go fuel rest
         else c0 :: '\\' :: '"' :: aggressiveQuoteFix3Go fuel after2
       | _ => c0 :: aggressiveQuoteFix3Go fuel rest)
    else c0 :: aggressiveQuoteFix3Go fuel rest

/-- Entry point of step 3c with enough fuel for the whole input. -/
def aggressiveQuoteFix3 (l : List Char) : List Char :=
  aggressiveQuoteFix3Go l.length l

/-- Validity test of the lookahead `(["\\\/bfnrt]|u[0-9a-fA-F]{4})` after a
backslash. -/
def validEscapeAhead (rest : List Char) : Bool :=
  match rest with
  | e :: r2 =>
    if e = 'u' then
      match r2 with
      | h1 :: h2 :: h3 :: h4 :: _ =>
        isHexDigitChar h1 && isHexDigitChar h2 && isHexDigitChar h3 && isHexDigitChar h4
      | _ => false
    else
      e = '"' || e = '\\' || e = '/' || e = 'b' || e = 'f' || e = 'n' || e = 'r' || e = 't'
  | [] => false

/-- Step 4 of `repairJson`: the replace
`/\\(?!(["\\\/bfnrt]|u[0-9a-fA-F]{4}))/g → '\\\\'` doubling every backslash
that does not start a valid escape sequence (the lookahead consumes nothing,
so scanning resumes at the next character). -/
def fixBadEscapes : List Char → List Char
  | [] => []
  | '\\' :: rest =>
    if validEscapeAhead rest then '\\' :: fixBadEscapes rest
    else '\\' :: '\\' :: fixBadEscapes rest
  | c :: rest => c :: fixBadEscapes rest

/-- `repairJson` (gemini.ts 103-141): trim, drop trailing commas, blank out
control characters, escape literal newlines inside string literals, the three
aggressive quote repairs (the `try` around them cannot throw: string replaces
are total), and finally double the invalid backslashes. -/
def repairJson (jsonStr : String) : String :=
  let repaired := fixControlChars (fixTrailingCommas (jsTrim jsonStr.toList))
  let repaired := fixStringNewlines repaired
  let repaired := aggressiveQuoteFix1 repaired
  let repaired := aggressiveQuoteFix2 repaired
  let repaired := aggressiveQuoteFix3 repaired
  let repaired := fixBadEscapes repaired
  String.mk repaired

/-- The brace-counting loop of `parseJSON`'s third attempt (gemini.ts
185-198): record the index of the first `{`, increment/decrement a counter on
every brace, and stop right after the brace that returns the counter to
zero. -/
def braceScan : List Char → Int → Option Nat → Nat → Option (Nat × Nat)
  | [], _, _, _ => none
  | c :: rest, braceCount, startIdx, i =>
    if c = '{' then
      braceScan rest (braceCount + 1) (some (startIdx.getD i)) (i + 1)
    else if c = '}' then
      (match startIdx with
       | some s =>
         if braceCount - 1 = 0 then some (s, i + 1)
         else braceScan rest (braceCount - 1) (some s) (i + 1)
       | none => braceScan rest (braceCount - 1) none (i + 1))
    else braceScan rest braceCount startIdx (i + 1)

/-- `jsonStr.substring(startIdx, endIdx)` for the span the brace scan found. -/
def braceBalanceSpan (s : String) : Option String :=
  match braceScan s.toList 0 none 0 with
  | some (st, en) => some (String.mk ((s.toList.drop st).take (en - st)))
  | none => none

/-- The error `parseJSON` throws when every attempt fails. -/
def parseFailMsg (firstError jsonStr : String) : String :=
  "Failed to parse JSON from Gemini response. Original error: " ++ firstError
    ++ ". Text preview: " ++ String.mk (jsonStr.toList.take 500) ++ "..."

/-- `parseJSON` (gemini.ts 143-212): extract, direct parse, parse after
`repairJson`, then parse the repaired balanced-brace span; give up with a
contextual error carrying the first parse error and a preview. -/
def parseJSON (text : String) : Except String JsonVal :=
  let jsonStr := extractJson text
  if jsonStr = "" then .error "No JSON found in Gemini response"
  else
    match jsonParse jsonStr with
    | .ok v => .ok v
    | .error firstError =>
      let cleanedJson := repairJson jsonStr
      match jsonParse cleanedJson with
      | .ok v => .ok v
      | .error _ =>
        (match braceBalanceSpan jsonStr with
         | some balanced =>
           (match jsonParse (repairJson balanced) with
            | .ok v => .ok v
            | .error _ => .error (parseFailMsg firstError jsonStr))
         | none => .error (parseFailMsg firstError jsonStr))

-- ===========================================================================
-- Pipeline data model - content/types.ts shapes as used by the agents,
-- the schemas of content/schemas.ts, and the orchestrator
-- ===========================================================================

/-- A keyword picked from the queue (`{keyword: string, ...}`); the ranking
metadata is never read by the pipeline core. -/
structure Keyword where
  keyword : String
deriving DecidableEq

/-- `SEOResearch`: the fields of `SEO_RESEARCH_SCHEMA`. -/
structure SEOResearch where
  search_intent : String
  serp_features : List String
  top_ranking_factors : List String
  keyword_variations : List String
  recommended_word_count : Int
  content_format : String
deriving DecidableEq, Inhabited

/-- `MedicalResearch`: the fields of `MEDICAL_RESEARCH_SCHEMA` (the nested
source objects are opaque payload to every verified property and are kept as
strings). -/
structure MedicalResearch where
  key_facts : List String
  mechanisms : List String
  contraindications : List String
  side_effects : List String
  dosing_info : List String
  sources : List String
  accuracy_requirements : List String
deriving DecidableEq, Inhabited

/-- `CompetitorResearch`: the fields of `COMPETITOR_RESEARCH_SCHEMA` (top
articles kept as opaque titles). -/
structure CompetitorResearch where
  top_articles : List String
  content_gaps : List String
  unique_angles : List String
  questions_unanswered : List String
deriving DecidableEq, Inhabited

/-- `SynthesizedResearch`: the fields of `SYNTHESIZED_RESEARCH_SCHEMA`
(`structure` is renamed `structureOutline` because `structure` is a Lean
keyword). -/
structure SynthesizedResearch where
  primary_angle : String
  target_audience : String
  key_questions : List String
  must_include : List String
  differentiation : String
  structureOutline : List String
  word_count : Int
deriving DecidableEq, Inhabited

/-- `ArticleDraft`: the fields of `ARTICLE_SCHEMA`. -/
structure ArticleDraft where
  angle : String
  title : String
  meta_description : String
  slug : String
  body : String
  sources_cited : List String
deriving DecidableEq, Inhabited

/-- One entry of `JudgeDecision.scores` (scores kept as integers: no verified
property computes with them). -/
structure JudgeScore where
  draft_index : Int
  overall : Int
  strengths : List String
  weaknesses : List String
deriving DecidableEq

/-- `JudgeDecision` (agents/judge.ts): the winner index is an arbitrary
integer as returned by the model. -/
structure JudgeDecision where
  winner : Int
  reasoning : String
  scores : List JudgeScore
  synthesis_opportunity : Bool
  elements_to_combine : Option (List (Int × String))
deriving DecidableEq

/-- `MedicalCritique` (fields of `MEDICAL_CRITIQUE_SCHEMA`; flagged claims are
opaque payload). -/
structure MedicalCritique where
  claims_found : Int
  claims_verified : Int
  missing_disclaimers : List String
  overall_accuracy : Int
  approved : Bool
  revision_required : List String
deriving DecidableEq

/-- `EditorialCritique` (fields of `EDITORIAL_CRITIQUE_SCHEMA`; the per-
dimension score block is opaque payload to every verified property). -/
structure EditorialCritique where
  overall_score : Int
  approved : Bool
  revision_required : List String
deriving DecidableEq

/-- `FinalArticle` (fields of `SEO_FINAL_SCHEMA` plus the counters the
orchestrator stamps on it). -/
structure FinalArticle where
  title : String
  meta_description : String
  slug : String
  body : String
  sources : List String
  internal_links : List (String × String)
  quality_score : Int
  iterations : Nat
  total_tokens : Nat
deriving DecidableEq, Inhabited

-- ===========================================================================
-- Research / synthesizer / finalizer agents
-- (agents/research.ts, agents/synthesizer.ts, agents/seo.ts)
-- ===========================================================================

/-- `seoResearchAgent`: wraps one `callGeminiJSON` call (the oracle) in
try/catch, converting a throw into the failure variant.  Also returns the
ghost record of the call made. -/
def seoResearchAgent (call : Except String (SEOResearch × Tokens)) :
    AgentResult SEOResearch × List CallEvent :=
  match call with
  | .ok (data, usage) => (.ok data (some usage), [("SEO-Research", usage)])
  | .error e => (.err e, [("SEO-Research", 0)])

/-- `medicalResearchAgent`: same shape as `seoResearchAgent`. -/
def medicalResearchAgent (call : Except String (MedicalResearch × Tokens)) :
    AgentResult MedicalResearch × List CallEvent :=
  match call with
  | .ok (data, usage) => (.ok data (some usage), [("Medical-Research", usage)])
  | .error e => (.err e, [("Medical-Research", 0)])

/-- `competitorResearchAgent`: same shape as `seoResearchAgent`. -/
def competitorResearchAgent (call : Except String (CompetitorResearch × Tokens)) :
    AgentResult CompetitorResearch × List CallEvent :=
  match call with
  | .ok (data, usage) => (.ok data (some usage), [("Competitor-Research", usage)])
  | .error e => (.err e, [("Competitor-Research", 0)])

/-- `synthesizerAgent` (agents/synthesizer.ts): one `callGeminiJSON` call in
try/catch. -/
def synthesizerAgent (call : Except String (SynthesizedResearch × Tokens)) :
    AgentResult SynthesizedResearch × List CallEvent :=
  match call with
  | .ok (data, usage) => (.ok data (some usage), [("Synthesizer", usage)])
  | .error e => (.err e, [("Synthesizer", 0)])

/-- `seoFinalizerAgent` (agents/seo.ts): one `callSmartAIJSON` call in
try/catch. -/
def seoFinalizerAgent (call : Except String (FinalArticle × Tokens)) :
    AgentResult FinalArticle × List CallEvent :=
  match call with
  | .ok (data, usage) => (.ok data (some usage), [("SEO-Finalizer", usage)])
  | .error e => (.err e, [("SEO-Finalizer", 0)])

-- ===========================================================================
-- Writer agents and the revision writer (the writers module of the repo;
-- writeArticle and revisionWriter, schemas.ts related doc lines 376-489)
-- ===========================================================================

/-- `writeArticle`: one `callAIJSON`/`callDeepSeekJSON` call (the oracle) in
try/catch.  This writers module returns `{success:true, data}` without any
usage field, so a successful writer call reports no token usage. -/
def writeArticle (angle : String) (call : Except String ArticleDraft) :
    AgentResult ArticleDraft × List CallEvent :=
  match call with
  | .ok data => (.ok data none, [("Writer-" ++ angle, 0)])
  | .error e => (.err e, [("Writer-" ++ angle, 0)])

/-- Everything of the `revisionWriter` prompt template before the `slug`
field of the requested output JSON. -/
def revisionPromptHeader (currentDraft : ArticleDraft)
    (medicalFeedback editorialFeedback : List String) : String :=
  "Revise this article based on feedback.\n\nCURRENT ARTICLE:\nTitle: "
    ++ currentDraft.title ++ "\nBody:\n" ++ currentDraft.body
    ++ "\n\nMEDICAL ACCURACY ISSUES (MUST FIX):\n"
    ++ String.intercalate "\n" (medicalFeedback.map (fun f => "- " ++ f))
    ++ "\n\nEDITORIAL IMPROVEMENTS:\n"
    ++ String.intercalate "\n" (editorialFeedback.map (fun f => "- " ++ f))
    ++ "\n\nRevise the article. Keep what's working, fix what's not.\n\nOutput JSON only:\n"
    ++ "\x7b\n  \"angle\": \"" ++ currentDraft.angle
    ++ "\",\n  \"title\": \"Updated title if needed\",\n  \"meta_description\": \"Updated meta if needed\",\n  "

/-- Everything of the `revisionWriter` prompt template after the `slug`
field. -/
def revisionPromptFooter : String :=
  ",\n  \"body\": \"Revised full article in markdown\",\n  \"sources_cited\": [\"Updated sources\"]\n\x7d"

/-- The prompt template of `revisionWriter`: the requested output JSON pins
`angle` and `slug` to the current draft's values (the `slug` field is grouped
out so that theorems can name it). -/
def revisionPrompt (currentDraft : ArticleDraft)
    (medicalFeedback editorialFeedback : List String) : String :=
  revisionPromptHeader currentDraft medicalFeedback editorialFeedback
    ++ ("\"slug\": \"" ++ currentDraft.slug ++ "\"")
    ++ revisionPromptFooter

/-- `revisionWriter`: builds the revision prompt and returns whatever draft
the model call (the oracle, a function of the prompt) parses to; nothing is
validated against the input draft.  Like the other writers it reports no
usage. -/
def revisionWriter (call : String → Except String ArticleDraft)
    (currentDraft : ArticleDraft) (medicalFeedback editorialFeedback : List String) :
    AgentResult ArticleDraft × List CallEvent :=
  match call (revisionPrompt currentDraft medicalFeedback editorialFeedback) with
  | .ok data => (.ok data none, [("Revision-Writer", 0)])
  | .error e => (.err e, [("Revision-Writer", 0)])

-- ===========================================================================
-- Judge agent - agents/judge.ts, lines 73-178
-- ===========================================================================

/-- The success payload of `judgeAgent`.  `selectedDraft` is an `Option`
because `validDrafts[winnerIdx]` is `undefined` in JavaScript when the
clamped index is negative. -/
structure JudgeData where
  selectedDraft : Option ArticleDraft
  decision : JudgeDecision
deriving DecidableEq

/-- `synthesizeDrafts` (judge.ts 142-178): one `callSmartAIJSON` call in
try/catch. -/
def synthesizeDrafts (call : Except String (ArticleDraft × Tokens)) :
    AgentResult ArticleDraft × List CallEvent :=
  match call with
  | .ok (data, usage) => (.ok data (some usage), [("Judge-Synthesis", usage)])
  | .error e => (.err e, [("Judge-Synthesis", 0)])

/-- `judgeAgent` (judge.ts 73-140): pre-validates the draft list, filters out
bodiless drafts (`drafts.filter(d => d && d.body)` - an empty body is falsy),
clamps the winner index with `Math.min(winner, validDrafts.length - 1)` (no
lower bound), indexes `validDrafts[winnerIdx]`, and optionally replaces the
selection with a synthesized draft, summing both calls' tokens; a failed
synthesis keeps the original winner.  `research` feeds only the prompt. -/
def judgeAgent (drafts : List ArticleDraft) (research : SynthesizedResearch)
    (judgeCall : Except String (JudgeDecision × Tokens))
    (synthCall : Except String (ArticleDraft × Tokens)) :
    AgentResult JudgeData × List CallEvent :=
  let _ := research
  if drafts.isEmpty then (.err "No drafts provided to judge agent", [])
  else
    let validDrafts := drafts.filter (fun d => !(d.body = ""))
    if validDrafts.isEmpty then
      (.err "No valid drafts with body content to evaluate", [])
    else
      match judgeCall with
      | .error e => (.err e, [("Judge", 0)])
      | .ok (decision, usage) =>
        let winnerIdx : Int := min decision.winner ((validDrafts.length : Int) - 1)
        let selectedDraft : Option ArticleDraft :=
          if 0 ≤ winnerIdx then validDrafts.get? winnerIdx.toNat else none
        let elems := decision.elements_to_combine.getD []
        if decision.synthesis_opportunity && !elems.isEmpty then
          let (synthesisResult, ev2) := synthesizeDrafts synthCall
          match synthesisResult with
          | .ok d u =>
            (.ok ⟨some d, decision⟩ (some (usage + u.getD 0)), ("Judge", usage) :: ev2)
          | .err _ =>
            (.ok ⟨selectedDraft, decision⟩ (some usage), ("Judge", usage) :: ev2)
        else
          (.ok ⟨selectedDraft, decision⟩ (some usage), [("Judge", usage)])

-- ===========================================================================
-- Critic agents - agents/critics.ts
-- ===========================================================================

/-- `medicalReviewerAgent` (critics.ts 21-51): one `callSmartAIJSON` call in
try/catch; the draft feeds only the prompt. -/
def medicalReviewerAgent (draft : ArticleDraft)
    (call : Except String (MedicalCritique × Tokens)) :
    AgentResult MedicalCritique × List CallEvent :=
  let _ := draft
  match call with
  | .ok (data, usage) => (.ok data (some usage), [("Critic-Medical", usage)])
  | .error e => (.err e, [("Critic-Medical", 0)])

/-- `editorialReviewerAgent` (critics.ts 64-87): same shape. -/
def editorialReviewerAgent (draft : ArticleDraft)
    (call : Except String (EditorialCritique × Tokens)) :
    AgentResult EditorialCritique × List CallEvent :=
  let _ := draft
  match call with
  | .ok (data, usage) => (.ok data (some usage), [("Critic-Editorial", usage)])
  | .error e => (.err e, [("Critic-Editorial", 0)])

/-- What `runCritique` returns. -/
structure CritiqueOutcome where
  medical : Option MedicalCritique
  editorial : Option EditorialCritique
  approved : Bool
  revisionNeeded : List String
  usage : Tokens
deriving DecidableEq

/-- `runCritique` (critics.ts 93-126): run the two reviewers sequentially,
sum the usage they report, keep each critique when its agent succeeded
(`null` otherwise), concatenate the two `revision_required` lists (medical
first, no deduplication - in JavaScript an empty array is truthy, so a
successful critique always contributes its list), and approve only when both
critics succeeded and approved (`(medical?.approved ?? false) &&
(editorial?.approved ?? false)`). -/
def runCritique (draft : ArticleDraft)
    (medCall : Except String (MedicalCritique × Tokens))
    (edCall : Except String (EditorialCritique × Tokens)) :
    CritiqueOutcome × List CallEvent :=
  let (medicalResult, ev1) := medicalReviewerAgent draft medCall
  let (editorialResult, ev2) := editorialReviewerAgent draft edCall
  let totalTokens := medicalResult.usageTokens + editorialResult.usageTokens
  let medical : Option MedicalCritique :=
    match medicalResult with
    | .ok c _ => some c
    | .err _ => none
  let editorial : Option EditorialCritique :=
    match editorialResult with
    | .ok c _ => some c
    | .err _ => none
  let revisionNeeded :=
    (match medical with
     | some c => c.revision_required
     | none => [])
    ++ (match editorial with
        | some c => c.revision_required
        | none => [])
  let approved :=
    (match medical with
     | some c => c.approved
     | none => false)
    && (match editorial with
        | some c => c.approved
        | none => false)
  (⟨medical, editorial, approved, revisionNeeded, totalTokens⟩, ev1 ++ ev2)

-- ===========================================================================
-- Orchestrator - src/content/orchestrator.ts
-- ===========================================================================

/-- `PipelineState.status`. -/
inductive Status where
  | researching
  | synthesizing
  | drafting
  | judging
  | critiquing
  | revising
  | finalizing
  | complete
  | failed
deriving DecidableEq

/-- The orchestrator's mutable data: the `PipelineState` fields (dates
omitted), the private `totalTokens` counter, and the ghost trace of every
model call made. -/
structure RunState where
  keyword : Keyword
  status : Status
  revisionCount : Nat
  maxRevisions : Nat
  errors : List String
  log : List String
  seoResearch : Option SEOResearch := none
  medicalResearch : Option MedicalResearch := none
  competitorResearch : Option CompetitorResearch := none
  synthesizedResearch : Option SynthesizedResearch := none
  drafts : Option (List ArticleDraft) := none
  selectedDraft : Option ArticleDraft := none
  currentDraft : Option ArticleDraft := none
  medicalCritique : Option MedicalCritique := none
  editorialCritique : Option EditorialCritique := none
  finalArticle : Option FinalArticle := none
  totalTokens : Nat := 0
  trace : List CallEvent := []

/-- A debug-log callback `(level, source, message) => Promise<void>`; a
rejecting callback is modelled as returning `Except.error`.  (The `metadata`
argument is dropped: no callback behaviour observed by the pipeline can
depend on it.) -/
abbrev DebugLogFn := String → String → String → Except String Unit

/-- The scripted environment of one run: the outcome of every model call the
pipeline may make (critic and revision calls indexed by the iteration number
at which they happen, the revision oracle a function of the prompt), plus the
optional debug-log callback. -/
structure Env where
  seoCall : Except String (SEOResearch × Tokens)
  medCall : Except String (MedicalResearch × Tokens)
  compCall : Except String (CompetitorResearch × Tokens)
  synthCall : Except String (SynthesizedResearch × Tokens)
  clinicalCall : Except String ArticleDraft
  empatheticCall : Except String ArticleDraft
  practicalCall : Except String ArticleDraft
  geminiCall : Except String ArticleDraft
  judgeCall : Except String (JudgeDecision × Tokens)
  judgeSynthCall : Except String (ArticleDraft × Tokens)
  medicalCriticCall : Nat → Except String (MedicalCritique × Tokens)
  editorialCriticCall : Nat → Except String (EditorialCritique × Tokens)
  revisionCall : Nat → String → Except String ArticleDraft
  finalizerCall : Except String (FinalArticle × Tokens)
  debugLog : Option DebugLogFn

/-- The orchestrator's `log` method: pushes the emoji-prefixed entry onto
`state.log` and then awaits the debug callback; the push survives a callback
rejection because it happens first. -/
def logStep (env : Env) (s : RunState) (message emoji level source : String) :
    Except String Unit × RunState :=
  let s2 := { s with log := s.log ++ [emoji ++ " " ++ message] }
  match env.debugLog with
  | none => (.ok (), s2)
  | some f => (f level source message, s2)

/-- The orchestrator's `logPhase` method: console output plus the debug
callback; no state change. -/
def logPhaseStep (env : Env) (s : RunState) (phase : String) :
    Except String Unit × RunState :=
  match env.debugLog with
  | none => (.ok (), s)
  | some f => (f "PHASE" "orchestrator" phase, s)

/-- The orchestrator's `logAgent` method: formats the status message and
invokes the debug callback; no state change. -/
def logAgentStep (env : Env) (s : RunState) (agent : String)
    (status : String) (details : Option String) :
    Except String Unit × RunState :=
  let msg :=
    if status = "start" then agent ++ " agent starting..."
    else if status = "complete" then
      agent ++ " agent complete" ++ (match details with
        | some d => ": " ++ d
        | none => "")
    else
      agent ++ " agent failed" ++ (match details with
        | some d => ": " ++ d
        | none => "")
  match env.debugLog with
  | none => (.ok (), s)
  | some f => (f "AGENT" agent.toLower msg, s)

/-- Sequencing of awaited steps: a rejected step propagates (the state
mutations already performed survive, as they do in the TypeScript class). -/
def bindStep (r : Except String α × RunState) (k : α → RunState → Except String β × RunState) :
    Except String β × RunState :=
  match r with
  | (.ok a, s) => k a s
  | (.error e, s) => (.error e, s)

/-- Phase 1, `runResearch` (orchestrator.ts 84-139): fan out the three
research agents, abort on the first failure (recording a phase-specific
error), otherwise store the documents and add the three reported usages. -/
def runResearch (env : Env) (s : RunState) : Except String Bool × RunState :=
  bindStep (logPhaseStep env s "PHASE 1: RESEARCH (Parallel)") fun _ s =>
  let s := { s with status := .researching }
  bindStep (logStep env s "Launching SEO, Medical, and Competitor research agents..." "🔍" "INFO" "pipeline") fun _ s =>
  bindStep (logAgentStep env s "SEO" "start" none) fun _ s =>
  bindStep (logAgentStep env s "Medical" "start" none) fun _ s =>
  bindStep (logAgentStep env s "Competitor" "start" none) fun _ s =>
  let (seoResult, ev1) := seoResearchAgent env.seoCall
  let (medicalResult, ev2) := medicalResearchAgent env.medCall
  let (competitorResult, ev3) := competitorResearchAgent env.compCall
  let s := { s with trace := s.trace ++ ev1 ++ ev2 ++ ev3 }
  match seoResult with
  | .err e =>
    let s := { s with errors := s.errors ++ ["SEO research failed: " ++ e] }
    bindStep (logAgentStep env s "SEO" "error" (some e)) fun _ s =>
    bindStep (logStep env s "SEO research failed" "❌" "ERROR" "research") fun _ s =>
    (.ok false, s)
  | .ok seoData seoUsage =>
    match medicalResult with
    | .err e =>
      let s := { s with errors := s.errors ++ ["Medical research failed: " ++ e] }
      bindStep (logAgentStep env s "Medical" "error" (some e)) fun _ s =>
      bindStep (logStep env s "Medical research failed" "❌" "ERROR" "research") fun _ s =>
      (.ok false, s)
    | .ok medData medUsage =>
      match competitorResult with
      | .err e =>
        let s := { s with errors := s.errors ++ ["Competitor research failed: " ++ e] }
        bindStep (logAgentStep env s "Competitor" "error" (some e)) fun _ s =>
        bindStep (logStep env s "Competitor research failed" "❌" "ERROR" "research") fun _ s =>
        (.ok false, s)
      | .ok compData compUsage =>
        let s := { s with
          seoResearch := some seoData
          medicalResearch := some medData
          competitorResearch := some compData }
        let s := { s with
          totalTokens := s.totalTokens + seoUsage.getD 0 + medUsage.getD 0 + compUsage.getD 0 }
        bindStep (logAgentStep env s "SEO" "complete"
          (some (toString seoData.recommended_word_count ++ " words"))) fun _ s =>
        bindStep (logAgentStep env s "Medical" "complete"
          (some (toString medData.key_facts.length ++ " facts"))) fun _ s =>
        bindStep (logAgentStep env s "Competitor" "complete"
          (some (toString compData.content_gaps.length ++ " gaps"))) fun _ s =>
        bindStep (logStep env s ("SEO: " ++ seoData.search_intent ++ " intent, "
          ++ toString seoData.recommended_word_count ++ " words") "✓" "INFO" "pipeline") fun _ s =>
        bindStep (logStep env s ("Medical: " ++ toString medData.key_facts.length
          ++ " key facts identified") "✓" "INFO" "pipeline") fun _ s =>
        bindStep (logStep env s ("Competitors: " ++ toString compData.content_gaps.length
          ++ " gaps found") "✓" "INFO" "pipeline") fun _ s =>
        (.ok true, s)

/-- Phase 2, `runSynthesis` (orchestrator.ts 145-172). -/
def runSynthesis (env : Env) (s : RunState) : Except String Bool × RunState :=
  bindStep (logPhaseStep env s "PHASE 2: SYNTHESIZE RESEARCH") fun _ s =>
  let s := { s with status := .synthesizing }
  bindStep (logAgentStep env s "Synthesizer" "start" none) fun _ s =>
  let (result, ev) := synthesizerAgent env.synthCall
  let s := { s with trace := s.trace ++ ev }
  match result with
  | .err e =>
    let s := { s with errors := s.errors ++ ["Synthesis failed: " ++ e] }
    bindStep (logAgentStep env s "Synthesizer" "error" (some e)) fun _ s =>
    bindStep (logStep env s "Synthesis failed" "❌" "ERROR" "synthesizer") fun _ s =>
    (.ok false, s)
  | .ok data usage =>
    let s := { s with
      synthesizedResearch := some data
      totalTokens := s.totalTokens + usage.getD 0 }
    bindStep (logAgentStep env s "Synthesizer" "complete"
      (some (toString data.word_count ++ " words target"))) fun _ s =>
    bindStep (logStep env s ("Angle: \"" ++ data.primary_angle ++ "\"") "✓" "INFO" "pipeline") fun _ s =>
    bindStep (logStep env s ("Target: " ++ toString data.word_count ++ " words") "✓" "INFO" "pipeline") fun _ s =>
    (.ok true, s)

/-- Phase 3, `runDrafting` (orchestrator.ts 178-243): fan out the four writer
personas, collect the successful drafts in order, add all four reported
usages (this writers module reports none), and fail when fewer than two
drafts succeeded. -/
def runDrafting (env : Env) (s : RunState) : Except String Bool × RunState :=
  bindStep (logPhaseStep env s "PHASE 3: DRAFT GENERATION (Parallel)") fun _ s =>
  let s := { s with status := .drafting }
  bindStep (logStep env s "Generating 4 draft angles: Clinical, Empathetic, Practical, and Gemini Innovative..." "✍️" "INFO" "pipeline") fun _ s =>
  bindStep (logAgentStep env s "Writer-Clinical" "start" none) fun _ s =>
  bindStep (logAgentStep env s "Writer-Empathetic" "start" none) fun _ s =>
  bindStep (logAgentStep env s "Writer-Practical" "start" none) fun _ s =>
  bindStep (logAgentStep env s "Writer-Gemini" "start" none) fun _ s =>
  let (clinicalResult, ev1) := writeArticle "Clinical" env.clinicalCall
  let (empatheticResult, ev2) := writeArticle "Empathetic" env.empatheticCall
  let (practicalResult, ev3) := writeArticle "Practical" env.practicalCall
  let (geminiResult, ev4) := writeArticle "Gemini" env.geminiCall
  let s := { s with trace := s.trace ++ ev1 ++ ev2 ++ ev3 ++ ev4 }
  bindStep
    (match clinicalResult with
     | .ok d _ =>
       bindStep (logAgentStep env s "Writer-Clinical" "complete" (some d.title)) fun _ s =>
       logStep env s ("Clinical draft: \"" ++ d.title ++ "\"") "✓" "INFO" "pipeline"
     | .err e => logAgentStep env s "Writer-Clinical" "error" (some e)) fun _ s =>
  bindStep
    (match empatheticResult with
     | .ok d _ =>
       bindStep (logAgentStep env s "Writer-Empathetic" "complete" (some d.title)) fun _ s =>
       logStep env s ("Empathetic draft: \"" ++ d.title ++ "\"") "✓" "INFO" "pipeline"
     | .err e => logAgentStep env s "Writer-Empathetic" "error" (some e)) fun _ s =>
  bindStep
    (match practicalResult with
     | .ok d _ =>
       bindStep (logAgentStep env s "Writer-Practical" "complete" (some d.title)) fun _ s =>
       logStep env s ("Practical draft: \"" ++ d.title ++ "\"") "✓" "INFO" "pipeline"
     | .err e => logAgentStep env s "Writer-Practical" "error" (some e)) fun _ s =>
  bindStep
    (match geminiResult with
     | .ok d _ =>
       bindStep (logAgentStep env s "Writer-Gemini" "complete" (some d.title)) fun _ s =>
       logStep env s ("Gemini Innovative draft: \"" ++ d.title ++ "\"") "✓" "INFO" "pipeline"
     | .err e => logAgentStep env s "Writer-Gemini" "error" (some e)) fun _ s =>
  let draftsList : List ArticleDraft :=
    (match clinicalResult with
     | .ok d _ => [d]
     | .err _ => [])
    ++ (match empatheticResult with
        | .ok d _ => [d]
        | .err _ => [])
    ++ (match practicalResult with
        | .ok d _ => [d]
        | .err _ => [])
    ++ (match geminiResult with
        | .ok d _ => [d]
        | .err _ => [])
  let s := { s with totalTokens := s.totalTokens
    + clinicalResult.usageTokens + empatheticResult.usageTokens
    + practicalResult.usageTokens + geminiResult.usageTokens }
  if draftsList.length < 2 then
    let s := { s with errors := s.errors ++ ["Not enough drafts generated"] }
    bindStep (logStep env s "Need at least 2 drafts to compare" "❌" "ERROR" "drafting") fun _ s =>
    (.ok false, s)
  else
    (.ok true, { s with drafts := some draftsList })

/-- Phase 4, `runJudging` (orchestrator.ts 250-279).  The phase never sets a
`judging` status (the source does not either).  When the judge returned
success with an `undefined` selected draft (negative winner index), the
template interpolation `selectedDraft.angle` in the completion log throws a
`TypeError`, which escapes to the run's catch. -/
def runJudging (env : Env) (s : RunState) : Except String Bool × RunState :=
  bindStep (logPhaseStep env s "PHASE 4: JUDGE EVALUATION") fun _ s =>
  bindStep (logStep env s "Judge evaluating all drafts..." "⚖️" "INFO" "pipeline") fun _ s =>
  bindStep (logAgentStep env s "Judge" "start" none) fun _ s =>
  let (result, ev) := judgeAgent (s.drafts.getD []) (s.synthesizedResearch.getD default)
    env.judgeCall env.judgeSynthCall
  let s := { s with trace := s.trace ++ ev }
  match result with
  | .err e =>
    let s := { s with errors := s.errors ++ ["Judge failed: " ++ e] }
    bindStep (logAgentStep env s "Judge" "error" (some e)) fun _ s =>
    bindStep (logStep env s "Judge evaluation failed" "❌" "ERROR" "judge") fun _ s =>
    (.ok false, s)
  | .ok data usage =>
    let s := { s with
      selectedDraft := data.selectedDraft
      currentDraft := data.selectedDraft
      totalTokens := s.totalTokens + usage.getD 0 }
    match data.selectedDraft with
    | none =>
      (.error "TypeError: Cannot read properties of undefined (reading 'angle')", s)
    | some selected =>
      bindStep (logAgentStep env s "Judge" "complete" (some ("Selected: " ++ selected.angle))) fun _ s =>
      bindStep (logStep env s ("Winner: Draft " ++ toString (data.decision.winner + 1)
        ++ " (" ++ selected.angle ++ ")") "🏆" "INFO" "pipeline") fun _ s =>
      bindStep (logStep env s ("Reasoning: " ++ String.mk (data.decision.reasoning.toList.take 100)
        ++ "...") "📋" "INFO" "pipeline") fun _ s =>
      if data.decision.synthesis_opportunity then
        bindStep (logStep env s "Synthesized best elements from multiple drafts" "🔀" "INFO" "pipeline") fun _ s =>
        (.ok true, s)
      else
        (.ok true, s)

/-- How one critique-loop exit happened: an early `return` from inside the
`while` body, or the `while` condition turning false. -/
inductive LoopExit where
  | earlyReturn (b : Bool)
  | exhausted
deriving DecidableEq

/-- The body of the `while (revisionCount < maxRevisions)` loop of
`runCritiqueLoop` (orchestrator.ts 289-348), as fueled recursion.  The fuel
is `maxRevisions - revisionCount` at entry, which matches the loop condition
because each pass increments `revisionCount` by exactly one. -/
def critiqueLoopGo (env : Env) : Nat → RunState → Except String LoopExit × RunState
  | 0, s => (.ok .exhausted, s)
  | fuel + 1, s =>
    if s.revisionCount < s.maxRevisions then
      bindStep (logStep env s ("Critique iteration " ++ toString (s.revisionCount + 1)
        ++ "/" ++ toString s.maxRevisions ++ "...") "🔍" "INFO" "pipeline") fun _ s =>
      bindStep (logAgentStep env s "Critic-Medical" "start" none) fun _ s =>
      bindStep (logAgentStep env s "Critic-Editorial" "start" none) fun _ s =>
      let (critique, ev) := runCritique (s.currentDraft.getD default)
        (env.medicalCriticCall s.revisionCount) (env.editorialCriticCall s.revisionCount)
      let s := { s with
        trace := s.trace ++ ev
        totalTokens := s.totalTokens + critique.usage }
      bindStep
        (match critique.medical with
         | some medical =>
           let s := { s with medicalCritique := some medical }
           bindStep (logAgentStep env s "Critic-Medical" "complete"
             (some (toString medical.claims_verified ++ "/" ++ toString medical.claims_found
               ++ " verified"))) fun _ s =>
           logStep env s ("Medical: " ++ toString medical.claims_verified ++ "/"
             ++ toString medical.claims_found ++ " claims verified")
             (if medical.approved then "✓" else "⚠️") "INFO" "pipeline"
         | none => (.ok (), s)) fun _ s =>
      bindStep
        (match critique.editorial with
         | some editorial =>
           let s := { s with editorialCritique := some editorial }
           bindStep (logAgentStep env s "Critic-Editorial" "complete"
             (some ("Score: " ++ toString editorial.overall_score ++ "/10"))) fun _ s =>
           logStep env s ("Editorial: " ++ toString editorial.overall_score ++ "/10")
             (if editorial.approved then "✓" else "⚠️") "INFO" "pipeline"
         | none => (.ok (), s)) fun _ s =>
      if critique.approved then
        bindStep (logStep env s "Both critics approve! Moving to finalization." "✅" "INFO" "pipeline") fun _ s =>
        (.ok (.earlyReturn true), s)
      else
        let s := { s with status := .revising }
        bindStep (logStep env s ("Revisions needed: " ++ toString critique.revisionNeeded.length
          ++ " items") "📝" "INFO" "pipeline") fun _ s =>
        bindStep (logAgentStep env s "Revision-Writer" "start" none) fun _ s =>
        let medicalFeedback := (s.medicalCritique.map (fun c => c.revision_required)).getD []
        let editorialFeedback := (s.editorialCritique.map (fun c => c.revision_required)).getD []
        let (revisionResult, rev) := revisionWriter (env.revisionCall s.revisionCount)
          (s.currentDraft.getD default) medicalFeedback editorialFeedback
        let s := { s with
          trace := s.trace ++ rev
          totalTokens := s.totalTokens + revisionResult.usageTokens }
        match revisionResult with
        | .err e =>
          let s := { s with errors := s.errors ++ ["Revision failed: " ++ e] }
          bindStep (logAgentStep env s "Revision-Writer" "error" (some e)) fun _ s =>
          bindStep (logStep env s "Revision failed" "❌" "ERROR" "revision") fun _ s =>
          (.ok (.earlyReturn false), s)
        | .ok newDraft _ =>
          let s := { s with
            currentDraft := some newDraft
            revisionCount := s.revisionCount + 1 }
          bindStep (logAgentStep env s "Revision-Writer" "complete"
            (some ("Iteration " ++ toString s.revisionCount))) fun _ s =>
          bindStep (logStep env s ("Revision " ++ toString s.revisionCount ++ " complete")
            "✓" "INFO" "pipeline") fun _ s =>
          critiqueLoopGo env fuel s
    else
      (.ok .exhausted, s)

/-- Phase 5, `runCritiqueLoop` (orchestrator.ts 285-353): run the loop; when
the iteration bound is exhausted, log the soft-fail warning and proceed
(return `true`). -/
def runCritiqueLoop (env : Env) (s : RunState) : Except String Bool × RunState :=
  bindStep (logPhaseStep env s "PHASE 5: CRITIQUE LOOP") fun _ s =>
  let s := { s with status := .critiquing }
  bindStep (critiqueLoopGo env (s.maxRevisions - s.revisionCount) s) fun exit s =>
  match exit with
  | .earlyReturn b => (.ok b, s)
  | .exhausted =>
    bindStep (logStep env s ("Max revisions (" ++ toString s.maxRevisions
      ++ ") reached. Proceeding with current draft.") "⚠️" "WARN" "critique") fun _ s =>
    (.ok true, s)

/-- Phase 6, `runFinalization` (orchestrator.ts 359-396): one finalizer call;
on success stamp `iterations`, `quality_score` and the accumulated
`total_tokens` onto the article and mark the run complete. -/
def runFinalization (env : Env) (s : RunState) : Except String Bool × RunState :=
  bindStep (logPhaseStep env s "PHASE 6: SEO FINALIZATION") fun _ s =>
  let s := { s with status := .finalizing }
  bindStep (logStep env s "Optimizing for SEO..." "🎯" "INFO" "pipeline") fun _ s =>
  bindStep (logAgentStep env s "SEO-Finalizer" "start" none) fun _ s =>
  let (result, ev) := seoFinalizerAgent env.finalizerCall
  let s := { s with trace := s.trace ++ ev }
  match result with
  | .err e =>
    let s := { s with errors := s.errors ++ ["Finalization failed: " ++ e] }
    bindStep (logAgentStep env s "SEO-Finalizer" "error" (some e)) fun _ s =>
    bindStep (logStep env s "SEO finalization failed" "❌" "ERROR" "seo") fun _ s =>
    (.ok false, s)
  | .ok article usage =>
    let s := { s with totalTokens := s.totalTokens + usage.getD 0 }
    let article := { article with
      iterations := s.revisionCount + 1
      quality_score := (s.editorialCritique.map (fun c => c.overall_score)).getD 0
      total_tokens := s.totalTokens }
    let s := { s with
      finalArticle := some article
      status := .complete }
    bindStep (logAgentStep env s "SEO-Finalizer" "complete" (some article.title)) fun _ s =>
    bindStep (logStep env s ("Final title: \"" ++ article.title ++ "\"") "✓" "INFO" "pipeline") fun _ s =>
    bindStep (logStep env s ("Internal links: " ++ toString article.internal_links.length)
      "✓" "INFO" "pipeline") fun _ s =>
    bindStep (logStep env s ("Quality score: " ++ toString article.quality_score ++ "/10")
      "✓" "INFO" "pipeline") fun _ s =>
    bindStep (logStep env s ("Total Token Usage: " ++ toString s.totalTokens)
      "💰" "INFO" "pipeline") fun _ s =>
    (.ok true, s)

/-- What `ContentOrchestrator.run` returns. -/
structure RunResult where
  success : Bool
  article : Option FinalArticle
  state : RunState

/-- The initial state built by the `ContentOrchestrator` constructor
(`maxRevisions` defaults to 3 at every call site that omits it). -/
def initState (keyword : Keyword) (maxRevisions : Nat) : RunState :=
  { keyword := keyword
    status := .researching
    revisionCount := 0
    maxRevisions := maxRevisions
    errors := []
    log := [] }

/-- The catch block of `run`: mark the run failed and record
`String(error)`. -/
def failRun (s : RunState) (e : String) : RunResult :=
  { success := false
    article := none
    state := { s with status := .failed, errors := s.errors ++ [e] } }

/-- `ContentOrchestrator.run` (orchestrator.ts 402-461): the six phases in
order, each gating the next; a phase returning `false` throws
`new Error("<phase> failed")` (stringified with the `Error: ` prefix), and
the catch block converts any throw into a failed-run result. -/
def runPipeline (env : Env) (keyword : Keyword) (maxRevisions : Nat) : RunResult :=
  match runResearch env (initState keyword maxRevisions) with
  | (.error e, s) => failRun s e
  | (.ok false, s) => failRun s "Error: Research phase failed"
  | (.ok true, s) =>
    match runSynthesis env s with
    | (.error e, s) => failRun s e
    | (.ok false, s) => failRun s "Error: Synthesis phase failed"
    | (.ok true, s) =>
      match runDrafting env s with
      | (.error e, s) => failRun s e
      | (.ok false, s) => failRun s "Error: Drafting phase failed"
      | (.ok true, s) =>
        match runJudging env s with
        | (.error e, s) => failRun s e
        | (.ok false, s) => failRun s "Error: Judging phase failed"
        | (.ok true, s) =>
          match runCritiqueLoop env s with
          | (.error e, s) => failRun s e
          | (.ok false, s) => failRun s "Error: Critique loop failed"
          | (.ok true, s) =>
            match runFinalization env s with
            | (.error e, s) => failRun s e
            | (.ok false, s) => failRun s "Error: Finalization failed"
            | (.ok true, s) =>
              { success := true
                article := s.finalArticle
                state := s }

-- ===========================================================================
-- Properties used in theorem statements
-- ===========================================================================

/-- A debug-log callback that never rejects (or is absent). -/
def LogOk (env : Env) : Prop :=
  ∀ f, env.debugLog = some f → ∀ level source message, f level source message = .ok ()

/-- Does a scripted call succeed? -/
def isOkCall : Except String α → Bool
  | .ok _ => true
  | .error _ => false

/-- How many of the four writer calls succeed. -/
def writerSuccessCount (env : Env) : Nat :=
  (if isOkCall env.clinicalCall then 1 else 0)
    + (if isOkCall env.empatheticCall then 1 else 0)
    + (if isOkCall env.practicalCall then 1 else 0)
    + (if isOkCall env.geminiCall then 1 else 0)

/-- Do both scripted critics of iteration `i` succeed and approve?  (This is
the `approved` flag `runCritique` computes at that iteration.) -/
def critBothApprove (env : Env) (i : Nat) : Bool :=
  (match env.medicalCriticCall i with
   | .ok (c, _) => c.approved
   | .error _ => false)
  && (match env.editorialCriticCall i with
      | .ok (c, _) => c.approved
      | .error _ => false)

-- ===========================================================================
-- Concrete data for witnesses and counterexamples
-- ===========================================================================

/-- Sample draft (clinical persona). -/
def sampleDraftA : ArticleDraft := ⟨"clinical", "T1", "M1", "slug-a", "body a", []⟩

/-- Sample draft (empathetic persona). -/
def sampleDraftB : ArticleDraft := ⟨"empathetic", "T2", "M2", "slug-b", "body b", []⟩

/-- Sample draft (practical persona). -/
def sampleDraftC : ArticleDraft := ⟨"practical", "T3", "M3", "slug-c", "body c", []⟩

/-- A revised draft whose slug differs from `sampleDraftA`'s. -/
def changedSlugDraft : ArticleDraft := ⟨"clinical", "T1x", "M1x", "changed-slug", "body x", []⟩

/-- Sample SEO research document. -/
def sampleSEO : SEOResearch := ⟨"informational", [], [], [], 1800, "guide"⟩

/-- Sample medical research document. -/
def sampleMedical : MedicalResearch := ⟨["f1"], [], [], [], [], [], []⟩

/-- Sample competitor research document. -/
def sampleCompetitor : CompetitorResearch := ⟨[], ["g1"], [], []⟩

/-- Sample synthesized brief. -/
def sampleBrief : SynthesizedResearch := ⟨"angle", "aud", [], [], "diff", [], 1800⟩

/-- Judge decision picking draft 1, no synthesis. -/
def sampleDecision : JudgeDecision := ⟨1, "reasoning", [], false, none⟩

/-- Judge decision with the out-of-range winner 99. -/
def decisionWinner99 : JudgeDecision := ⟨99, "reasoning", [], false, none⟩

/-- Judge decision with the negative winner -1. -/
def decisionWinnerNeg : JudgeDecision := ⟨-1, "reasoning", [], false, none⟩

/-- An approving medical critique. -/
def approveMedical : MedicalCritique := ⟨3, 3, [], 9, true, []⟩

/-- An approving editorial critique. -/
def approveEditorial : EditorialCritique := ⟨8, true, []⟩

/-- A rejecting medical critique. -/
def rejectMedical : MedicalCritique := ⟨3, 1, [], 4, false, ["fix dosage claim"]⟩

/-- A rejecting editorial critique. -/
def rejectEditorial : EditorialCritique := ⟨5, false, ["tighten intro"]⟩

/-- The article the finalizer oracle returns (before the orchestrator stamps
its counters). -/
def sampleFinalRaw : FinalArticle := ⟨"FT", "FM", "slug-f", "fbody", [], [], 0, 0, 0⟩

/-- A fully successful scripted environment: three research calls, the
synthesizer, three of four writers, the judge (winner 1, no synthesis), both
critics approving at once, and the finalizer; no debug-log callback. -/
def sampleEnv : Env :=
  { seoCall := .ok (sampleSEO, 100)
    medCall := .ok (sampleMedical, 200)
    compCall := .ok (sampleCompetitor, 300)
    synthCall := .ok (sampleBrief, 50)
    clinicalCall := .ok sampleDraftA
    empatheticCall := .ok sampleDraftB
    practicalCall := .ok sampleDraftC
    geminiCall := .error "writer boom"
    judgeCall := .ok (sampleDecision, 40)
    judgeSynthCall := .error "no synthesis scripted"
    medicalCriticCall := fun _ => .ok (approveMedical, 11)
    editorialCriticCall := fun _ => .ok (approveEditorial, 13)
    revisionCall := fun _ _ => .ok sampleDraftA
    finalizerCall := .ok (sampleFinalRaw, 77)
    debugLog := none }

/-- The article `sampleEnv` completes with. -/
def sampleCompletedArticle : FinalArticle :=
  { sampleFinalRaw with iterations := 1, quality_score := 8, total_tokens := 791 }

/-- `sampleEnv` with a failing medical research call. -/
def envResearchFail : Env := { sampleEnv with medCall := .error "medical boom" }

/-- `sampleEnv` with only one successful writer. -/
def envOneDraft : Env :=
  { sampleEnv with empatheticCall := .error "e1", practicalCall := .error "e2" }

/-- `sampleEnv` with critics that never both approve and revisions that
always succeed. -/
def envNeverApprove : Env :=
  { sampleEnv with
    medicalCriticCall := fun _ => .ok (rejectMedical, 7)
    editorialCriticCall := fun _ => .ok (rejectEditorial, 9)
    revisionCall := fun i _ => .ok { sampleDraftA with body := "rev " ++ toString i } }

/-- `envNeverApprove` with revision calls that always fail. -/
def envRevisionFail : Env :=
  { envNeverApprove with revisionCall := fun _ _ => .error "rev boom" }

/-- `sampleEnv` with a debug-log callback that always rejects. -/
def envThrowingLog : Env :=
  { sampleEnv with debugLog := some (fun _ _ _ => .error "Error: callback failure") }

/-- A state at critique-loop entry (as after judging) with `maxRevisions = 2`. -/
def stateLoopStart : RunState :=
  { initState ⟨"kw"⟩ 2 with currentDraft := some sampleDraftB }

/-- The token-accounting invariant: the orchestrator's running total equals
the sum of the usages reported by the calls recorded so far. -/
def TokInv (s : RunState) : Prop :=
  s.totalTokens = sumReported s.trace

-- ===========================================================================
-- Helper lemmas
-- ===========================================================================

@[simp]
theorem bindStep_ok (a : α) (s : RunState) (k : α → RunState → Except String β × RunState) :
    bindStep (.ok a, s) k = k a s := rfl

@[simp]
theorem bindStep_error (e : String) (s : RunState) (k : α → RunState → Except String β × RunState) :
    bindStep (.error e, s) k = (.error e, s) := rfl

theorem logStep_eq {env : Env} (h : LogOk env) (s : RunState) (message emoji level source : String) :
    logStep env s message emoji level source
      = (.ok (), { s with log := s.log ++ [emoji ++ " " ++ message] }) := by
  unfold logStep
  cases hd : env.debugLog with
  | none => rfl
  | some f =>
    dsimp only
    rw [h f hd]

theorem logPhaseStep_eq {env : Env} (h : LogOk env) (s : RunState) (phase : String) :
    logPhaseStep env s phase = (.ok (), s) := by
  unfold logPhaseStep
  cases hd : env.debugLog with
  | none => rfl
  | some f =>
    dsimp only
    rw [h f hd]

theorem logAgentStep_eq {env : Env} (h : LogOk env) (s : RunState) (agent status : String)
    (details : Option String) :
    logAgentStep env s agent status details = (.ok (), s) := by
  unfold logAgentStep
  cases hd : env.debugLog with
  | none => rfl
  | some f =>
    dsimp only
    rw [h f hd]

theorem sampleEnv_logOk : LogOk sampleEnv := fun f h => nomatch h

@[simp]
theorem sumReported_append (a b : List CallEvent) :
    sumReported (a ++ b) = sumReported a + sumReported b := by
  simp [sumReported]

@[simp]
theorem sumReported_cons (ev : CallEvent) (t : List CallEvent) :
    sumReported (ev :: t) = ev.2 + sumReported t := by
  simp [sumReported]

@[simp]
theorem sumReported_nil : sumReported [] = 0 := rfl

@[simp]
theorem countCalls_append (name : String) (a b : List CallEvent) :
    countCalls name (a ++ b) = countCalls name a + countCalls name b := by
  simp [countCalls]

@[simp]
theorem countCalls_cons (name : String) (ev : CallEvent) (t : List CallEvent) :
    countCalls name (ev :: t)
      = (if ev.1 = name then 1 else 0) + countCalls name t := by
  by_cases h : ev.1 = name <;> simp [countCalls, h] <;> omega

@[simp]
theorem countCalls_nil (name : String) : countCalls name [] = 0 := rfl

-- ===========================================================================
-- C6 - dual-provider dispatcher fallback classification
-- ===========================================================================

/-- C6: for every prompt, the dispatcher invokes the secondary (Gemini)
provider if and only if the primary (Claude) call fails with an error
classified as exhausted credits or rate limiting; on any other primary error
it re-raises that error without calling the secondary provider, and on
primary success it returns the primary result tagged with provider
`claude`. -/
theorem callSmartAIJSON_fallback_iff {α : Type} (c g : Except String (α × Tokens)) :
    ((callSmartAIJSON c g).2 = true ↔ ∃ e, c = .error e ∧ isFallbackError e = true)
    ∧ (∀ d u, c = .ok (d, u) → callSmartAIJSON c g = (.ok (d, u, .claude), false))
    ∧ (∀ e, c = .error e → isFallbackError e = false →
        callSmartAIJSON c g = (.error e, false))
    ∧ (∀ e, c = .error e → isFallbackError e = true →
        (callSmartAIJSON c g).1
          = (match g with
             | .ok (d, u) => .ok (d, u, .gemini)
             | .error e2 => .error e2)) := by
  rcases c with e | ⟨d, u⟩
  · by_cases hf : isFallbackError e = true
    · refine ⟨⟨fun _ => ⟨e, rfl, hf⟩, fun _ => ?_⟩, ?_, ?_, ?_⟩
      · simp [callSmartAIJSON, hf]
      · intro d u h
        cases h
      · intro e' h hnf
        cases h
        rw [hnf] at hf
        cases hf
      · intro e' h _
        cases h
        rcases g with e2 | ⟨d, u⟩ <;> simp [callSmartAIJSON, hf]
    · refine ⟨⟨fun hh => ?_, fun ⟨e', he', hf'⟩ => ?_⟩, ?_, ?_, ?_⟩
      · simp [callSmartAIJSON, hf] at hh
      · cases he'
        rw [hf'] at hf
        cases hf rfl
      · intro d u h
        cases h
      · intro e' h _
        cases h
        simp [callSmartAIJSON, hf]
      · intro e' h hf'
        cases h
        rw [hf'] at hf
        cases hf rfl
  · refine ⟨⟨fun hh => ?_, fun ⟨e', he', _⟩ => ?_⟩, ?_, ?_, ?_⟩
    · simp [callSmartAIJSON] at hh
    · cases he'
    · intro d' u' h
      cases h
      rfl
    · intro e' h _
      cases h
    · intro e' h _
      cases h

/-- Witness for C6 at concrete inputs: a rate-limited primary error falls
back to the secondary result; a plain primary error is re-raised without
fallback; a primary success is tagged `claude`. -/
theorem callSmartAIJSON_fallback_iff_witness :
    (callSmartAIJSON (α := Nat) (.error "429 rate limited") (.ok (5, 7))).2 = true
    ∧ callSmartAIJSON (α := Nat) (.error "500 server down") (.ok (5, 7))
        = (.error "500 server down", false)
    ∧ callSmartAIJSON (α := Nat) (.ok (3, 9)) (.ok (5, 7))
        = (.ok (3, 9, .claude), false) := by
  refine ⟨?_, ?_, ?_⟩
  · exact (callSmartAIJSON_fallback_iff (.error "429 rate limited") (.ok (5, 7))).1.mpr
      ⟨"429 rate limited", rfl, by decide⟩
  · exact (callSmartAIJSON_fallback_iff (.error "500 server down") (.ok (5, 7))).2.2.1
      "500 server down" rfl (by decide)
  · exact (callSmartAIJSON_fallback_iff (.ok (3, 9)) (.ok (5, 7))).2.1 3 9 rfl

-- ===========================================================================
-- C10 - combined critique
-- ===========================================================================

/-- C10: `runCritique` is total (it never throws: both reviewer invocations
catch internally), its combined approval is true exactly when both critic
calls succeed and report `approved = true` (a failed critic invocation counts
as non-approval with a `null` critique and contributes no fixes), and
`revisionNeeded` is the concatenation of the medical critic's
`revision_required` list followed by the editorial critic's, without
deduplication; the reported usage is the sum of what the two calls
reported. -/
theorem runCritique_combined (draft : ArticleDraft)
    (mc : Except String (MedicalCritique × Tokens))
    (ec : Except String (EditorialCritique × Tokens)) :
    ((runCritique draft mc ec).1.approved
        = ((match mc with
            | .ok (c, _) => c.approved
            | .error _ => false)
          && (match ec with
              | .ok (c, _) => c.approved
              | .error _ => false)))
    ∧ (runCritique draft mc ec).1.revisionNeeded
        = (match mc with
           | .ok (c, _) => c.revision_required
           | .error _ => [])
          ++ (match ec with
              | .ok (c, _) => c.revision_required
              | .error _ => [])
    ∧ (runCritique draft mc ec).1.medical
        = (match mc with
           | .ok (c, _) => some c
           | .error _ => none)
    ∧ (runCritique draft mc ec).1.editorial
        = (match ec with
           | .ok (c, _) => some c
           | .error _ => none)
    ∧ (runCritique draft mc ec).1.usage
        = (match mc with
           | .ok (_, u) => u
           | .error _ => 0)
          + (match ec with
             | .ok (_, u) => u
             | .error _ => 0) := by
  rcases mc with e1 | ⟨c1, u1⟩ <;> rcases ec with e2 | ⟨c2, u2⟩ <;>
    simp [runCritique, medicalReviewerAgent, editorialReviewerAgent, AgentResult.usageTokens]

-- ===========================================================================
-- C3 - judge winner-index clamping
-- ===========================================================================

/-- C3 counterexample: with three valid drafts and a judge response carrying
the negative winner index -1, `judgeAgent` succeeds but selects no draft at
all (`validDrafts[-1]` is `undefined`), so the selected draft is not at any
index in the valid range - the claim fails for negative winner values. -/
theorem judge_negative_winner_cex :
    (judgeAgent [sampleDraftA, sampleDraftB, sampleDraftC] sampleBrief
        (.ok (decisionWinnerNeg, 40)) (.error "no synthesis scripted")).1
      = .ok ⟨none, decisionWinnerNeg⟩ (some 40) := by
  rfl

/-- C3 amended: for every draft list with at least one valid draft and every
judge response with a nonnegative winner index (out-of-range values such as
99 included) and no synthesis opportunity, `judgeAgent` selects the draft at
index `min winner (validDrafts.length - 1)`, which lies in the valid range
`[0, validDrafts.length - 1]`; negative winner indices are not clamped and
select no draft (see the counterexample). -/
theorem judge_winner_clamped (drafts : List ArticleDraft) (research : SynthesizedResearch)
    (u : Tokens) (sc : Except String (ArticleDraft × Tokens)) (dec : JudgeDecision)
    (hvalid : drafts.filter (fun d => !(d.body = "")) ≠ [])
    (hw : 0 ≤ dec.winner)
    (hsyn : dec.synthesis_opportunity = false) :
    let validDrafts := drafts.filter (fun d => !(d.body = ""))
    let winnerIdx : Int := min dec.winner ((validDrafts.length : Int) - 1)
    winnerIdx.toNat < validDrafts.length
    ∧ (judgeAgent drafts research (.ok (dec, u)) sc).1
        = .ok ⟨validDrafts.get? winnerIdx.toNat, dec⟩ (some u)
    ∧ (validDrafts.get? winnerIdx.toNat).isSome = true := by
  intro validDrafts winnerIdx
  have hnpos : 0 < validDrafts.length := List.length_pos.mpr hvalid
  have hdrafts : drafts ≠ [] := by
    intro hh
    apply hvalid
    simp [validDrafts, hh]
  have hmin : winnerIdx ≤ (validDrafts.length : Int) - 1 := min_le_right _ _
  have hminpos : 0 ≤ winnerIdx := le_min hw (by omega)
  have hlt : winnerIdx.toNat < validDrafts.length := by omega
  refine ⟨hlt, ?_, ?_⟩
  · unfold judgeAgent
    rw [if_neg (fun hh => hdrafts (List.isEmpty_iff.mp hh))]
    rw [if_neg (fun hh => hvalid (List.isEmpty_iff.mp hh))]
    dsimp only
    rw [if_pos hminpos, hsyn]
    simp
  · rw [List.get?_eq_getElem?]
    simp [hlt]

/-- Witness for C3 at the spec's concrete input: `winner = 99` with three
valid drafts selects the draft at index 2, the last valid draft. -/
theorem judge_winner_clamped_witness :
    ((min (99 : Int) ((([sampleDraftA, sampleDraftB, sampleDraftC].filter
          (fun d => !(d.body = ""))).length : Int) - 1)).toNat
        < ([sampleDraftA, sampleDraftB, sampleDraftC].filter (fun d => !(d.body = ""))).length)
    ∧ (judgeAgent [sampleDraftA, sampleDraftB, sampleDraftC] sampleBrief
          (.ok (decisionWinner99, 40)) (.error "no synthesis scripted")).1
        = .ok ⟨([sampleDraftA, sampleDraftB, sampleDraftC].filter (fun d => !(d.body = ""))).get?
            ((min (99 : Int) ((([sampleDraftA, sampleDraftB, sampleDraftC].filter
              (fun d => !(d.body = ""))).length : Int) - 1)).toNat), decisionWinner99⟩ (some 40)
    ∧ (([sampleDraftA, sampleDraftB, sampleDraftC].filter (fun d => !(d.body = ""))).get?
        ((min (99 : Int) ((([sampleDraftA, sampleDraftB, sampleDraftC].filter
          (fun d => !(d.body = ""))).length : Int) - 1)).toNat)).isSome = true := by
  exact judge_winner_clamped [sampleDraftA, sampleDraftB, sampleDraftC] sampleBrief 40
    (.error "no synthesis scripted") decisionWinner99 (by decide) (by decide) rfl

-- ===========================================================================
-- C4 - JSON repair on already-valid input
-- ===========================================================================

/-- C4 counterexample: `"ab"` is valid JSON (it parses to the string `ab`),
but running `repairJson` on it and then parsing fails: the quote-repair
heuristic `/([a-z])\s*"(?!\s*[,}\]:\]])/gi` escapes the closing quote
(producing `"ab\"`), so the repair transformation is not a no-op on
already-valid input. -/
theorem repair_corrupts_valid_json_cex :
    jsonParse "\"ab\"" = .ok (.str "ab")
    ∧ repairJson "\"ab\"" = "\"ab\\\""
    ∧ jsonParse (repairJson "\"ab\"") = .error "Unterminated string in JSON" := by
  exact ⟨rfl, rfl, rfl⟩

/-- C4 amended: the **full** `parseJSON` pipeline is a no-op on already-valid
input, because it attempts a direct parse before any repair: whenever the
extracted text parses directly, `parseJSON` returns exactly that value and
`repairJson` is never consulted.  The `repairJson` transformation by itself
is not a no-op on already-valid JSON (see the counterexample). -/
theorem parseJSON_direct_parse_noop (s : String) (v : JsonVal)
    (h : jsonParse (extractJson s) = .ok v) : parseJSON s = .ok v := by
  unfold parseJSON
  by_cases he : extractJson s = ""
  · rw [he] at h
    rw [show jsonParse "" = Except.error "Unexpected end of JSON input" from rfl] at h
    exact Except.noConfusion h
  · simp only [he, if_false, h]

/-- Witness for C4: a concrete valid JSON object parses directly and the
pipeline returns the directly-parsed value. -/
theorem parseJSON_direct_parse_noop_witness :
    jsonParse (extractJson "\x7b\"a\":1\x7d") = .ok (.obj [("a", .num "1")])
    ∧ parseJSON "\x7b\"a\":1\x7d" = .ok (.obj [("a", .num "1")]) := by
  exact ⟨rfl, parseJSON_direct_parse_noop "\x7b\"a\":1\x7d" (.obj [("a", .num "1")]) rfl⟩

-- ===========================================================================
-- C5 - revision-writer slug stability
-- ===========================================================================

/-- C5 counterexample: a successful revision call whose model response
carries a different slug is returned as-is - `revisionWriter` does not
enforce that the output slug equals the input draft's slug. -/
theorem revision_slug_not_enforced_cex :
    (revisionWriter (fun _ => .ok changedSlugDraft) sampleDraftA
        ["fix dosage claim"] ["tighten intro"]).1
      = .ok changedSlugDraft none
    ∧ changedSlugDraft.slug ≠ sampleDraftA.slug := by
  exact ⟨rfl, by decide⟩

/-- C5 amended: a successful call of the Revision Agent returns the draft
parsed from the model response unchanged, so its slug is whatever the model
returned; the prompt pins the slug - the requested output template contains
the input draft's slug verbatim in its `slug` field - but nothing enforces
it. -/
theorem revisionWriter_slug_passthrough
    (call : String → Except String ArticleDraft) (currentDraft : ArticleDraft)
    (medicalFeedback editorialFeedback : List String) (d' : ArticleDraft)
    (h : call (revisionPrompt currentDraft medicalFeedback editorialFeedback) = .ok d') :
    (revisionWriter call currentDraft medicalFeedback editorialFeedback).1 = .ok d' none
    ∧ jsIncludes (revisionPrompt currentDraft medicalFeedback editorialFeedback)
        ("\"slug\": \"" ++ currentDraft.slug ++ "\"") = true := by
  constructor
  · unfold revisionWriter
    rw [h]
  · simp only [jsIncludes, decide_eq_true_eq]
    show ("\"slug\": \"" ++ currentDraft.slug ++ "\"").data <:+:
      (revisionPrompt currentDraft medicalFeedback editorialFeedback).data
    unfold revisionPrompt
    rw [String.data_append, String.data_append]
    exact List.infix_append _ _ _

/-- Witness for C5: with a model call that echoes the requested slug, the
revision succeeds with that draft, and the prompt contains the pinned slug
field. -/
theorem revisionWriter_slug_passthrough_witness :
    (revisionWriter (fun _ => .ok sampleDraftA) sampleDraftA [] []).1 = .ok sampleDraftA none
    ∧ jsIncludes (revisionPrompt sampleDraftA [] [])
        ("\"slug\": \"" ++ sampleDraftA.slug ++ "\"") = true := by
  exact revisionWriter_slug_passthrough (fun _ => .ok sampleDraftA) sampleDraftA [] []
    sampleDraftA rfl

-- ===========================================================================
-- C9 - callback failures and pipeline outcome
-- ===========================================================================

/-- C9 (code bug): the heartbeat callback of `callClaude` is harmless - its
rejections are swallowed, so the call's outcome never depends on it - but the
orchestrator's `log` method awaits the `debugLog` callback with no protection
whatsoever: with the very same scripted agent results, a run whose debug-log
callback always rejects fails (`status = failed`), while the run without the
callback completes.  A throwing log callback therefore does change the
pipeline outcome, contradicting the claim. -/
theorem callback_rejection_changes_outcome :
    (∀ hb : Option HeartbeatFn, callClaude (.ok ("response", 5)) hb "Judge"
        = callClaude (.ok ("response", 5)) none "Judge")
    ∧ (∀ hb : Option HeartbeatFn, ∀ e : String, callClaude (.error e) hb "Judge"
        = callClaude (.error e) none "Judge")
    ∧ (runPipeline envThrowingLog ⟨"kw"⟩ 3).success = false
    ∧ (runPipeline envThrowingLog ⟨"kw"⟩ 3).state.status = .failed
    ∧ (runPipeline sampleEnv ⟨"kw"⟩ 3).success = true
    ∧ (runPipeline sampleEnv ⟨"kw"⟩ 3).state.status = .complete := by
  exact ⟨fun hb => rfl, fun hb e => rfl, rfl, rfl, rfl, rfl⟩

-- ===========================================================================
-- Token-invariant lemmas for the pipeline phases
-- ===========================================================================

theorem runResearch_tok {env : Env} {s s' : RunState} (hlog : LogOk env)
    (h : runResearch env s = (.ok true, s')) (hinv : TokInv s) : TokInv s' := by
  unfold runResearch at h
  simp only [logPhaseStep_eq hlog, logStep_eq hlog, logAgentStep_eq hlog, bindStep_ok] at h
  rcases h1 : env.seoCall with e1 | ⟨d1, u1⟩ <;>
    simp only [h1, seoResearchAgent] at h
  · exact absurd h (by simp)
  rcases h2 : env.medCall with e2 | ⟨d2, u2⟩ <;>
    simp only [h2, medicalResearchAgent] at h
  · exact absurd h (by simp)
  rcases h3 : env.compCall with e3 | ⟨d3, u3⟩ <;>
    simp only [h3, competitorResearchAgent] at h
  · exact absurd h (by simp)
  injection h with hb hs
  subst hs
  simp only [TokInv, sumReported_append, sumReported_cons, sumReported_nil,
    Option.getD_some] at hinv ⊢
  omega

theorem runSynthesis_tok {env : Env} {s s' : RunState} (hlog : LogOk env)
    (h : runSynthesis env s = (.ok true, s')) (hinv : TokInv s) : TokInv s' := by
  unfold runSynthesis at h
  simp only [logPhaseStep_eq hlog, logStep_eq hlog, logAgentStep_eq hlog, bindStep_ok] at h
  rcases h1 : env.synthCall with e1 | ⟨d1, u1⟩ <;>
    simp only [h1, synthesizerAgent] at h
  · exact absurd h (by simp)
  injection h with hb hs
  subst hs
  simp only [TokInv, sumReported_append, sumReported_cons, sumReported_nil,
    Option.getD_some] at hinv ⊢
  omega

theorem runDrafting_tok {env : Env} {s s' : RunState} {b : Bool} (hlog : LogOk env)
    (h : runDrafting env s = (.ok b, s')) (hinv : TokInv s) : TokInv s' := by
  unfold runDrafting at h
  simp only [logPhaseStep_eq hlog, logStep_eq hlog, logAgentStep_eq hlog, bindStep_ok] at h
  rcases h1 : env.clinicalCall with e1 | d1 <;>
    rcases h2 : env.empatheticCall with e2 | d2 <;>
      rcases h3 : env.practicalCall with e3 | d3 <;>
        rcases h4 : env.geminiCall with e4 | d4 <;>
          simp only [h1, h2, h3, h4, writeArticle, AgentResult.usageTokens,
            logStep_eq hlog, logAgentStep_eq hlog, bindStep_ok] at h <;>
          split at h <;>
          · injection h with hb hs
            subst hs
            simp only [TokInv, sumReported_append, sumReported_cons, sumReported_nil,
              Option.getD_none] at hinv ⊢
            omega

theorem judgeAgent_usage_eq (drafts : List ArticleDraft) (research : SynthesizedResearch)
    (jc : Except String (JudgeDecision × Tokens)) (sc : Except String (ArticleDraft × Tokens)) :
    (judgeAgent drafts research jc sc).1.usageTokens
      = sumReported (judgeAgent drafts research jc sc).2 := by
  rcases jc with e | ⟨dec, u⟩ <;> rcases sc with e2 | ⟨d2, u2⟩ <;>
    simp only [judgeAgent, synthesizeDrafts] <;>
    split_ifs <;>
    simp [AgentResult.usageTokens, sumReported]

theorem runCritique_usage_eq (draft : ArticleDraft)
    (mc : Except String (MedicalCritique × Tokens))
    (ec : Except String (EditorialCritique × Tokens)) :
    (runCritique draft mc ec).1.usage = sumReported (runCritique draft mc ec).2 := by
  rcases mc with e1 | ⟨c1, u1⟩ <;> rcases ec with e2 | ⟨c2, u2⟩ <;>
    simp [runCritique, medicalReviewerAgent, editorialReviewerAgent,
      AgentResult.usageTokens, sumReported]

theorem revisionWriter_usage_eq (call : String → Except String ArticleDraft)
    (d : ArticleDraft) (mf ef : List String) :
    (revisionWriter call d mf ef).1.usageTokens = 0
    ∧ sumReported (revisionWriter call d mf ef).2 = 0 := by
  unfold revisionWriter
  rcases call (revisionPrompt d mf ef) with e | d' <;>
    simp [AgentResult.usageTokens, sumReported]

theorem runJudging_tok {env : Env} {s s' : RunState} (hlog : LogOk env)
    (h : runJudging env s = (.ok true, s')) (hinv : TokInv s) : TokInv s' := by
  unfold runJudging at h
  simp only [logPhaseStep_eq hlog, logStep_eq hlog, logAgentStep_eq hlog, bindStep_ok] at h
  have husage := judgeAgent_usage_eq (s.drafts.getD []) (s.synthesizedResearch.getD default)
    env.judgeCall env.judgeSynthCall
  rcases hj : judgeAgent (s.drafts.getD []) (s.synthesizedResearch.getD default)
      env.judgeCall env.judgeSynthCall with ⟨result, ev⟩
  rw [hj] at husage h
  rcases result with ⟨data, usage⟩ | e
  · rcases hd : data.selectedDraft with _ | sel <;>
      simp only [hd, logStep_eq hlog, logAgentStep_eq hlog, bindStep_ok] at h
    · exact absurd h (by simp)
    · simp only [AgentResult.usageTokens] at husage
      split at h <;>
      · injection h with hb hs
        subst hs
        simp only [TokInv, sumReported_append] at hinv ⊢
        rw [hinv, husage]
  · simp only [logStep_eq hlog, logAgentStep_eq hlog, bindStep_ok] at h
    exact absurd h (by simp)

theorem revisionWriter_usageTokens_zero (call : String → Except String ArticleDraft)
    (d : ArticleDraft) (mf ef : List String) :
    (revisionWriter call d mf ef).1.usageTokens = 0 :=
  (revisionWriter_usage_eq call d mf ef).1

theorem revisionWriter_events_zero (call : String → Except String ArticleDraft)
    (d : ArticleDraft) (mf ef : List String) :
    sumReported (revisionWriter call d mf ef).2 = 0 :=
  (revisionWriter_usage_eq call d mf ef).2

theorem critiqueLoopGo_tok {env : Env} (hlog : LogOk env) :
    ∀ (fuel : Nat) (s : RunState) (r : Except String LoopExit) (s' : RunState),
      critiqueLoopGo env fuel s = (r, s') → TokInv s → TokInv s' := by
  intro fuel
  induction fuel with
  | zero =>
    intro s r s' h hinv
    unfold critiqueLoopGo at h
    injection h with hb hs
    subst hs
    exact hinv
  | succ fuel ih =>
    intro s r s' h hinv
    unfold critiqueLoopGo at h
    by_cases hcond : s.revisionCount < s.maxRevisions
    case neg =>
      rw [if_neg hcond] at h
      injection h with hb hs
      subst hs
      exact hinv
    case pos =>
      rw [if_pos hcond] at h
      simp only [logStep_eq hlog, logAgentStep_eq hlog, bindStep_ok] at h
      have hu := runCritique_usage_eq (s.currentDraft.getD default)
        (env.medicalCriticCall s.revisionCount) (env.editorialCriticCall s.revisionCount)
      rcases hq : runCritique (s.currentDraft.getD default)
          (env.medicalCriticCall s.revisionCount) (env.editorialCriticCall s.revisionCount)
        with ⟨critique, ev⟩
      rw [hq] at hu h
      rcases critique with ⟨med, ed, app, rn, us⟩
      simp only at hu
      rcases med with _ | m <;> rcases ed with _ | e' <;>
        simp only [logStep_eq hlog, logAgentStep_eq hlog, bindStep_ok] at h <;>
        cases app <;>
        simp only [Bool.false_eq_true, if_false, if_true, ite_true, ite_false, reduceIte] at h
      all_goals try
        (injection h with hb hs
         subst hs
         simp only [TokInv, sumReported_append] at hinv ⊢
         rw [hinv, hu])
      all_goals
        split at h
        case _ =>
          injection h with hb hs
          subst hs
          simp only [TokInv, sumReported_append, revisionWriter_usageTokens_zero,
            revisionWriter_events_zero] at hinv ⊢
          rw [hinv, hu]
        case _ =>
          apply ih _ _ _ h
          simp only [TokInv, sumReported_append, revisionWriter_usageTokens_zero,
            revisionWriter_events_zero] at hinv ⊢
          rw [hinv, hu]

theorem runCritiqueLoop_tok {env : Env} {s s' : RunState} {b : Bool} (hlog : LogOk env)
    (h : runCritiqueLoop env s = (.ok b, s')) (hinv : TokInv s) : TokInv s' := by
  unfold runCritiqueLoop at h
  simp only [logPhaseStep_eq hlog, bindStep_ok] at h
  rcases hg : critiqueLoopGo env
      ({ s with status := Status.critiquing }.maxRevisions
        - { s with status := Status.critiquing }.revisionCount)
      { s with status := Status.critiquing } with ⟨r0, s0⟩
  have hi0 : TokInv s0 := critiqueLoopGo_tok hlog _ _ _ _ hg hinv
  rw [hg] at h
  rcases r0 with e0 | exit
  · exact absurd h (by simp [bindStep])
  rcases exit with b0 | _
  · simp only [bindStep_ok] at h
    injection h with hb hs
    subst hs
    exact hi0
  · simp only [bindStep_ok, logStep_eq hlog] at h
    injection h with hb hs
    subst hs
    exact hi0

theorem runFinalization_article {env : Env} {s s' : RunState} (hlog : LogOk env)
    (h : runFinalization env s = (.ok true, s')) (hinv : TokInv s) :
    TokInv s' ∧ ∃ a, s'.finalArticle = some a ∧ a.total_tokens = s'.totalTokens := by
  unfold runFinalization at h
  simp only [logPhaseStep_eq hlog, logStep_eq hlog, logAgentStep_eq hlog, bindStep_ok] at h
  rcases hf : env.finalizerCall with e | ⟨fa, u⟩ <;>
    simp only [hf, seoFinalizerAgent, logStep_eq hlog, logAgentStep_eq hlog, bindStep_ok] at h
  · exact absurd h (by simp)
  · injection h with hb hs
    subst hs
    refine ⟨?_, ⟨_, rfl, rfl⟩⟩
    simp only [TokInv, sumReported_append, sumReported_cons, sumReported_nil,
      Option.getD_some] at hinv ⊢
    omega

-- ===========================================================================
-- C1 - token accounting
-- ===========================================================================

/-- C1: for every run of the orchestrator (over any scripted call outcomes,
with a debug-log callback that does not itself reject), the total token count
stamped on the final article equals the sum of the token usage reported by
every model call actually made during the run, as recorded by the ghost
trace: research, synthesis, all four writer attempts (successful or not),
the judge's scoring call and any synthesis-merge attempt inside the judge
phase (a failed merge reports no usage and contributes zero, as do failed
calls that died before any provider response), every critic call of every
critique iteration, every revision attempt, and the finalizer. -/
theorem run_token_accounting (env : Env) (kw : Keyword) (maxRevisions : Nat)
    (hlog : LogOk env) (a : FinalArticle)
    (h : (runPipeline env kw maxRevisions).article = some a) :
    a.total_tokens = sumReported (runPipeline env kw maxRevisions).state.trace := by
  unfold runPipeline at h ⊢
  have hi0 : TokInv (initState kw maxRevisions) := by
    simp [TokInv, initState, sumReported]
  rcases h1 : runResearch env (initState kw maxRevisions) with ⟨r1, s1⟩
  rw [h1] at h
  rcases r1 with e1 | b1
  · simp [failRun] at h
  rcases b1
  · simp [failRun] at h
  dsimp only at h ⊢
  have hi1 : TokInv s1 := runResearch_tok hlog h1 hi0
  rcases h2 : runSynthesis env s1 with ⟨r2, s2⟩
  rw [h2] at h
  rcases r2 with e2 | b2
  · simp [failRun] at h
  rcases b2
  · simp [failRun] at h
  dsimp only at h ⊢
  have hi2 : TokInv s2 := runSynthesis_tok hlog h2 hi1
  rcases h3 : runDrafting env s2 with ⟨r3, s3⟩
  rw [h3] at h
  rcases r3 with e3 | b3
  · simp [failRun] at h
  rcases b3
  · simp [failRun] at h
  dsimp only at h ⊢
  have hi3 : TokInv s3 := runDrafting_tok hlog h3 hi2
  rcases h4 : runJudging env s3 with ⟨r4, s4⟩
  rw [h4] at h
  rcases r4 with e4 | b4
  · simp [failRun] at h
  rcases b4
  · simp [failRun] at h
  dsimp only at h ⊢
  have hi4 : TokInv s4 := runJudging_tok hlog h4 hi3
  rcases h5 : runCritiqueLoop env s4 with ⟨r5, s5⟩
  rw [h5] at h
  rcases r5 with e5 | b5
  · simp [failRun] at h
  rcases b5
  · simp [failRun] at h
  dsimp only at h ⊢
  have hi5 : TokInv s5 := runCritiqueLoop_tok hlog h5 hi4
  rcases h6 : runFinalization env s5 with ⟨r6, s6⟩
  rw [h6] at h
  rcases r6 with e6 | b6
  · simp [failRun] at h
  rcases b6
  · simp [failRun] at h
  dsimp only at h ⊢
  obtain ⟨hi6, a', ha', htok⟩ := runFinalization_article hlog h6 hi5
  rw [ha'] at h
  injection h with ha
  subst ha
  rw [htok]
  exact hi6

/-- Witness for C1: the fully successful sample run completes with a final
article whose stamped token total (791) equals the sum of the usages reported
on the trace of the twelve calls made. -/
theorem run_token_accounting_witness :
    (runPipeline sampleEnv ⟨"semaglutide side effects"⟩ 3).article = some sampleCompletedArticle
    ∧ sampleCompletedArticle.total_tokens
        = sumReported (runPipeline sampleEnv ⟨"semaglutide side effects"⟩ 3).state.trace := by
  exact ⟨rfl, run_token_accounting sampleEnv ⟨"semaglutide side effects"⟩ 3 sampleEnv_logOk
    sampleCompletedArticle rfl⟩

-- ===========================================================================
-- C7 - research failure gates the pipeline
-- ===========================================================================

theorem medicalResearchAgent_events (c : Except String (MedicalResearch × Tokens)) :
    ∃ k, (medicalResearchAgent c).2 = [("Medical-Research", k)] := by
  rcases c with e | ⟨d, u⟩
  · exact ⟨0, rfl⟩
  · exact ⟨u, rfl⟩

theorem competitorResearchAgent_events (c : Except String (CompetitorResearch × Tokens)) :
    ∃ k, (competitorResearchAgent c).2 = [("Competitor-Research", k)] := by
  rcases c with e | ⟨d, u⟩
  · exact ⟨0, rfl⟩
  · exact ⟨u, rfl⟩

theorem runResearch_failure {env : Env} {s : RunState} (hlog : LogOk env)
    (hfail : (∃ e, env.seoCall = .error e) ∨ (∃ e, env.medCall = .error e)
      ∨ (∃ e, env.compCall = .error e)) :
    ∃ s', runResearch env s = (.ok false, s')
      ∧ ((∃ e, env.seoCall = .error e ∧ ("SEO research failed: " ++ e) ∈ s'.errors)
         ∨ (∃ e, env.medCall = .error e ∧ ("Medical research failed: " ++ e) ∈ s'.errors)
         ∨ (∃ e, env.compCall = .error e ∧ ("Competitor research failed: " ++ e) ∈ s'.errors))
      ∧ countCalls "Synthesizer" s'.trace = countCalls "Synthesizer" s.trace := by
  unfold runResearch
  simp only [logPhaseStep_eq hlog, logStep_eq hlog, logAgentStep_eq hlog, bindStep_ok]
  obtain ⟨k2, hk2⟩ := medicalResearchAgent_events env.medCall
  obtain ⟨k3, hk3⟩ := competitorResearchAgent_events env.compCall
  rcases h1 : env.seoCall with e1 | ⟨d1, u1⟩ <;> simp only [h1, seoResearchAgent]
  · refine ⟨_, rfl, .inl ⟨e1, rfl, by simp⟩, ?_⟩
    rw [hk2, hk3]
    simp
  · rcases h2 : env.medCall with e2 | ⟨d2, u2⟩ <;> simp only [h2, medicalResearchAgent]
    · refine ⟨_, rfl, .inr (.inl ⟨e2, rfl, by simp⟩), ?_⟩
      rw [hk3]
      simp [countCalls]
    · rcases h3 : env.compCall with e3 | ⟨d3, u3⟩ <;>
        simp only [h3, competitorResearchAgent]
      · refine ⟨_, rfl, .inr (.inr ⟨e3, rfl, by simp⟩), by simp [countCalls]⟩
      · exfalso
        rcases hfail with ⟨e, hh⟩ | ⟨e, hh⟩ | ⟨e, hh⟩
        · rw [h1] at hh
          cases hh
        · rw [h2] at hh
          cases hh
        · rw [h3] at hh
          cases hh

/-- C7: whenever at least one of the three research agents returns a
failure, the run reaches terminal status `failed` with `success = false`, the
phase-specific research error is recorded in the state's error list, and the
synthesizer agent is never invoked (no `Synthesizer` call appears in the
trace). -/
theorem research_failure_gates_pipeline (env : Env) (kw : Keyword) (maxRevisions : Nat)
    (hlog : LogOk env)
    (hfail : (∃ e, env.seoCall = .error e) ∨ (∃ e, env.medCall = .error e)
      ∨ (∃ e, env.compCall = .error e)) :
    (runPipeline env kw maxRevisions).success = false
    ∧ (runPipeline env kw maxRevisions).state.status = .failed
    ∧ ((∃ e, env.seoCall = .error e
          ∧ ("SEO research failed: " ++ e) ∈ (runPipeline env kw maxRevisions).state.errors)
       ∨ (∃ e, env.medCall = .error e
          ∧ ("Medical research failed: " ++ e) ∈ (runPipeline env kw maxRevisions).state.errors)
       ∨ (∃ e, env.compCall = .error e
          ∧ ("Competitor research failed: " ++ e) ∈ (runPipeline env kw maxRevisions).state.errors))
    ∧ countCalls "Synthesizer" (runPipeline env kw maxRevisions).state.trace = 0 := by
  obtain ⟨s', hr, hdisj, hcount⟩ := runResearch_failure (s := initState kw maxRevisions) hlog hfail
  unfold runPipeline
  rw [hr]
  dsimp only [failRun]
  refine ⟨rfl, rfl, ?_, ?_⟩
  · rcases hdisj with ⟨e, he, hm⟩ | ⟨e, he, hm⟩ | ⟨e, he, hm⟩
    · exact .inl ⟨e, he, by simp [hm]⟩
    · exact .inr (.inl ⟨e, he, by simp [hm]⟩)
    · exact .inr (.inr ⟨e, he, by simp [hm]⟩)
  · rw [hcount]
    simp [initState, countCalls]

/-- Witness for C7: with a failing medical research call (and the other
oracles of the successful sample run), the pipeline fails with the medical
research error recorded and never calls the synthesizer. -/
theorem research_failure_gates_pipeline_witness :
    (runPipeline envResearchFail ⟨"kw"⟩ 3).success = false
    ∧ (runPipeline envResearchFail ⟨"kw"⟩ 3).state.status = .failed
    ∧ ("Medical research failed: medical boom" ∈ (runPipeline envResearchFail ⟨"kw"⟩ 3).state.errors)
    ∧ countCalls "Synthesizer" (runPipeline envResearchFail ⟨"kw"⟩ 3).state.trace = 0 := by
  obtain ⟨hs, hst, hdisj, hcnt⟩ := research_failure_gates_pipeline envResearchFail ⟨"kw"⟩ 3
    (fun f h => nomatch h) (.inr (.inl ⟨"medical boom", rfl⟩))
  refine ⟨hs, hst, ?_, hcnt⟩
  rcases hdisj with ⟨e, he, hm⟩ | ⟨e, he, hm⟩ | ⟨e, he, hm⟩
  · cases he
  · rw [show e = "medical boom" from by cases he; rfl] at hm
    exact hm
  · cases he

-- ===========================================================================
-- C8 - minimum-draft rule
-- ===========================================================================

theorem runResearch_all_ok {env : Env} {s : RunState} (hlog : LogOk env)
    (p1 : SEOResearch × Tokens) (p2 : MedicalResearch × Tokens) (p3 : CompetitorResearch × Tokens)
    (hseo : env.seoCall = .ok p1) (hmed : env.medCall = .ok p2) (hcomp : env.compCall = .ok p3) :
    ∃ s', runResearch env s = (.ok true, s') ∧ s'.errors = s.errors := by
  obtain ⟨d1, u1⟩ := p1
  obtain ⟨d2, u2⟩ := p2
  obtain ⟨d3, u3⟩ := p3
  unfold runResearch
  simp only [logPhaseStep_eq hlog, logStep_eq hlog, logAgentStep_eq hlog, bindStep_ok,
    hseo, hmed, hcomp, seoResearchAgent, medicalResearchAgent, competitorResearchAgent]
  exact ⟨_, rfl, rfl⟩

theorem runSynthesis_ok {env : Env} {s : RunState} (hlog : LogOk env)
    (p : SynthesizedResearch × Tokens) (hsynth : env.synthCall = .ok p) :
    ∃ s', runSynthesis env s = (.ok true, s') ∧ s'.errors = s.errors := by
  obtain ⟨d, u⟩ := p
  unfold runSynthesis
  simp only [logPhaseStep_eq hlog, logStep_eq hlog, logAgentStep_eq hlog, bindStep_ok,
    hsynth, synthesizerAgent]
  exact ⟨_, rfl, rfl⟩

theorem runDrafting_succeeds_iff {env : Env} (s : RunState) (hlog : LogOk env) :
    (runDrafting env s).1 = .ok true ↔ 2 ≤ writerSuccessCount env := by
  unfold runDrafting
  simp only [logPhaseStep_eq hlog, logStep_eq hlog, logAgentStep_eq hlog, bindStep_ok]
  rcases h1 : env.clinicalCall with e1 | d1 <;>
    rcases h2 : env.empatheticCall with e2 | d2 <;>
      rcases h3 : env.practicalCall with e3 | d3 <;>
        rcases h4 : env.geminiCall with e4 | d4 <;>
          simp [h1, h2, h3, h4, writeArticle, AgentResult.usageTokens,
            writerSuccessCount, isOkCall, logStep_eq hlog, logAgentStep_eq hlog]

theorem runDrafting_insufficient {env : Env} {s : RunState} (hlog : LogOk env)
    (hlt : writerSuccessCount env < 2) :
    ∃ s', runDrafting env s = (.ok false, s')
      ∧ "Not enough drafts generated" ∈ s'.errors := by
  unfold runDrafting
  simp only [logPhaseStep_eq hlog, logStep_eq hlog, logAgentStep_eq hlog, bindStep_ok]
  rcases h1 : env.clinicalCall with e1 | d1 <;>
    rcases h2 : env.empatheticCall with e2 | d2 <;>
      rcases h3 : env.practicalCall with e3 | d3 <;>
        rcases h4 : env.geminiCall with e4 | d4 <;>
          simp only [h1, h2, h3, h4, writerSuccessCount, isOkCall, reduceIte] at hlt <;>
          first
            | omega
            | simp [h1, h2, h3, h4, writeArticle, AgentResult.usageTokens,
                logStep_eq hlog, logAgentStep_eq hlog, bindStep_ok]

/-- C8: the drafting phase succeeds exactly when at least two of the four
writer calls return success; with fewer than two successes (after the
research and synthesis phases succeeded, so that drafting is actually
reached) the phase records the insufficient-drafts error
`"Not enough drafts generated"` and the run terminates as failed. -/
theorem drafting_minimum_two_rule (env : Env) (s : RunState) (kw : Keyword)
    (maxRevisions : Nat) (hlog : LogOk env) :
    ((runDrafting env s).1 = .ok true ↔ 2 ≤ writerSuccessCount env)
    ∧ (∀ (p1 : SEOResearch × Tokens) (p2 : MedicalResearch × Tokens)
        (p3 : CompetitorResearch × Tokens) (p4 : SynthesizedResearch × Tokens),
        env.seoCall = .ok p1 → env.medCall = .ok p2 → env.compCall = .ok p3 →
        env.synthCall = .ok p4 → writerSuccessCount env < 2 →
        (runPipeline env kw maxRevisions).success = false
        ∧ (runPipeline env kw maxRevisions).state.status = .failed
        ∧ "Not enough drafts generated" ∈ (runPipeline env kw maxRevisions).state.errors) := by
  refine ⟨runDrafting_succeeds_iff s hlog, ?_⟩
  intro p1 p2 p3 p4 hseo hmed hcomp hsynth hlt
  obtain ⟨s1, hr1, -⟩ := runResearch_all_ok (s := initState kw maxRevisions) hlog p1 p2 p3
    hseo hmed hcomp
  obtain ⟨s2, hr2, -⟩ := runSynthesis_ok (s := s1) hlog p4 hsynth
  obtain ⟨s3, hr3, hmem⟩ := runDrafting_insufficient (s := s2) hlog hlt
  unfold runPipeline
  rw [hr1]
  dsimp only
  rw [hr2]
  dsimp only
  rw [hr3]
  dsimp only [failRun]
  refine ⟨rfl, rfl, by simp [hmem]⟩

/-- Witness for C8: with exactly one successful writer, drafting does not
succeed and the full run fails with the insufficient-drafts error. -/
theorem drafting_minimum_two_rule_witness :
    (¬ ((runDrafting envOneDraft (initState ⟨"kw"⟩ 3)).1 = .ok true))
    ∧ (runPipeline envOneDraft ⟨"kw"⟩ 3).success = false
    ∧ (runPipeline envOneDraft ⟨"kw"⟩ 3).state.status = .failed
    ∧ "Not enough drafts generated" ∈ (runPipeline envOneDraft ⟨"kw"⟩ 3).state.errors := by
  obtain ⟨hiff, hrun⟩ := drafting_minimum_two_rule envOneDraft (initState ⟨"kw"⟩ 3) ⟨"kw"⟩ 3
    (fun f h => nomatch h)
  obtain ⟨hs, hst, hmem⟩ := hrun (sampleSEO, 100) (sampleMedical, 200) (sampleCompetitor, 300)
    (sampleBrief, 50) rfl rfl rfl rfl (by decide)
  refine ⟨fun hh => ?_, hs, hst, hmem⟩
  have := hiff.mp hh
  revert this
  decide

-- ===========================================================================
-- C2 - critique loop bound
-- ===========================================================================

theorem revisionWriter_always_ok (call : String → Except String ArticleDraft)
    (dr : ArticleDraft) (mf ef : List String)
    (h : ∀ p, ∃ d, call p = .ok d) :
    ∃ d, revisionWriter call dr mf ef = (.ok d none, [("Revision-Writer", 0)]) := by
  obtain ⟨d, hd⟩ := h (revisionPrompt dr mf ef)
  exact ⟨d, by unfold revisionWriter; rw [hd]⟩

theorem critiqueLoopGo_exhausts {env : Env} (hlog : LogOk env)
    (hnoapp : ∀ i, critBothApprove env i = false)
    (hrev : ∀ i p, ∃ d, env.revisionCall i p = .ok d) :
    ∀ (fuel : Nat) (s : RunState), s.revisionCount + fuel = s.maxRevisions →
      ∃ s', critiqueLoopGo env fuel s = (.ok .exhausted, s')
        ∧ countCalls "Critic-Medical" s'.trace = countCalls "Critic-Medical" s.trace + fuel
        ∧ countCalls "Revision-Writer" s'.trace = countCalls "Revision-Writer" s.trace + fuel
        ∧ s'.revisionCount = s.maxRevisions
        ∧ s'.maxRevisions = s.maxRevisions := by
  intro fuel
  induction fuel with
  | zero =>
    intro s hf
    exact ⟨s, rfl, by omega, by omega, by omega, rfl⟩
  | succ fuel ih =>
    intro s hf
    have hcond : s.revisionCount < s.maxRevisions := by omega
    have step : ∀ t : RunState, t.revisionCount + fuel = t.maxRevisions →
        countCalls "Critic-Medical" t.trace = countCalls "Critic-Medical" s.trace + 1 →
        countCalls "Revision-Writer" t.trace = countCalls "Revision-Writer" s.trace + 1 →
        t.maxRevisions = s.maxRevisions →
        ∃ s', critiqueLoopGo env fuel t = (.ok .exhausted, s')
          ∧ countCalls "Critic-Medical" s'.trace = countCalls "Critic-Medical" s.trace + (fuel + 1)
          ∧ countCalls "Revision-Writer" s'.trace = countCalls "Revision-Writer" s.trace + (fuel + 1)
          ∧ s'.revisionCount = s.maxRevisions
          ∧ s'.maxRevisions = s.maxRevisions := by
      intro t h1 h2 h3 h4
      obtain ⟨s', hloop, hc1, hc2, hrc, hmr⟩ := ih t h1
      exact ⟨s', hloop, by omega, by omega, by omega, by omega⟩
    unfold critiqueLoopGo
    rw [if_pos hcond]
    simp only [logStep_eq hlog, logAgentStep_eq hlog, bindStep_ok]
    rcases hm : env.medicalCriticCall s.revisionCount with em | ⟨cm, um⟩ <;>
      rcases he : env.editorialCriticCall s.revisionCount with ee | ⟨ce, ue⟩
    · simp only [runCritique, medicalReviewerAgent, editorialReviewerAgent, hm, he,
        AgentResult.usageTokens, logStep_eq hlog, logAgentStep_eq hlog, bindStep_ok,
        Bool.false_and, Bool.and_false, Bool.false_eq_true, reduceIte]
      obtain ⟨dnew, hw⟩ := revisionWriter_always_ok (env.revisionCall s.revisionCount) _ _ _
        (hrev s.revisionCount)
      rw [hw]
      try simp only [AgentResult.usageTokens, logStep_eq hlog, logAgentStep_eq hlog, bindStep_ok]
      apply step
      all_goals simp [countCalls] <;> omega
    · simp only [runCritique, medicalReviewerAgent, editorialReviewerAgent, hm, he,
        AgentResult.usageTokens, logStep_eq hlog, logAgentStep_eq hlog, bindStep_ok,
        Bool.false_and, Bool.and_false, Bool.false_eq_true, reduceIte]
      obtain ⟨dnew, hw⟩ := revisionWriter_always_ok (env.revisionCall s.revisionCount) _ _ _
        (hrev s.revisionCount)
      rw [hw]
      try simp only [AgentResult.usageTokens, logStep_eq hlog, logAgentStep_eq hlog, bindStep_ok]
      apply step
      all_goals simp [countCalls] <;> omega
    · simp only [runCritique, medicalReviewerAgent, editorialReviewerAgent, hm, he,
        AgentResult.usageTokens, logStep_eq hlog, logAgentStep_eq hlog, bindStep_ok,
        Bool.false_and, Bool.and_false, Bool.false_eq_true, reduceIte]
      obtain ⟨dnew, hw⟩ := revisionWriter_always_ok (env.revisionCall s.revisionCount) _ _ _
        (hrev s.revisionCount)
      rw [hw]
      try simp only [AgentResult.usageTokens, logStep_eq hlog, logAgentStep_eq hlog, bindStep_ok]
      apply step
      all_goals simp [countCalls] <;> omega
    · have hna : (cm.approved && ce.approved) = false := by
        simpa [critBothApprove, hm, he] using hnoapp s.revisionCount
      simp only [runCritique, medicalReviewerAgent, editorialReviewerAgent, hm, he,
        AgentResult.usageTokens, logStep_eq hlog, logAgentStep_eq hlog, bindStep_ok,
        hna, Bool.false_eq_true, reduceIte]
      obtain ⟨dnew, hw⟩ := revisionWriter_always_ok (env.revisionCall s.revisionCount) _ _ _
        (hrev s.revisionCount)
      rw [hw]
      try simp only [AgentResult.usageTokens, logStep_eq hlog, logAgentStep_eq hlog, bindStep_ok]
      apply step
      all_goals simp [countCalls] <;> omega


/-- C2 counterexample: with critics that never both approve (`envRevisionFail`
rejects on both critics at every iteration) and `maxRevisions = 2`, a failed
revision call aborts the critique loop after a single critique iteration and a
single revision attempt and returns `ok false`, so the loop does **not**
perform exactly `maxRevisions` iterations as claimed (orchestrator.ts 337-342
returns early on revision failure). -/
theorem critique_loop_revision_failure_cex :
    (∀ i, critBothApprove envRevisionFail i = false)
    ∧ stateLoopStart.maxRevisions = 2
    ∧ (runCritiqueLoop envRevisionFail stateLoopStart).1 = .ok false
    ∧ countCalls "Critic-Medical" (runCritiqueLoop envRevisionFail stateLoopStart).2.trace = 1
    ∧ countCalls "Revision-Writer" (runCritiqueLoop envRevisionFail stateLoopStart).2.trace = 1 :=
  ⟨fun _ => rfl, rfl, rfl, rfl, rfl⟩

/-- C2 amended: for every `maxRevisions` bound, for critics that never both
approve, **and for revision calls that always succeed** (with a debug callback
that never throws), the critique loop starting at `revisionCount = 0` performs
exactly `maxRevisions` critique iterations (Critic-Medical calls) and exactly
`maxRevisions` revision calls, then terminates returning success (`ok true`,
the soft-fail warning path), with the final `revisionCount` equal to
`maxRevisions`. -/
theorem critique_loop_runs_maxRevisions {env : Env} (hlog : LogOk env)
    (hnoapp : ∀ i, critBothApprove env i = false)
    (hrev : ∀ i p, ∃ d, env.revisionCall i p = .ok d)
    (s : RunState) (h0 : s.revisionCount = 0) :
    ∃ s', runCritiqueLoop env s = (.ok true, s')
      ∧ countCalls "Critic-Medical" s'.trace
          = countCalls "Critic-Medical" s.trace + s.maxRevisions
      ∧ countCalls "Revision-Writer" s'.trace
          = countCalls "Revision-Writer" s.trace + s.maxRevisions
      ∧ s'.revisionCount = s.maxRevisions := by
  unfold runCritiqueLoop
  rw [logPhaseStep_eq hlog]
  simp only [bindStep_ok]
  obtain ⟨t, hgo, hc1, hc2, hrc, hmr⟩ :=
    critiqueLoopGo_exhausts hlog hnoapp hrev
      ({ s with status := .critiquing }.maxRevisions
        - { s with status := .critiquing }.revisionCount)
      { s with status := .critiquing }
      (by show s.revisionCount + (s.maxRevisions - s.revisionCount) = s.maxRevisions; omega)
  rw [hgo]
  simp only [bindStep_ok]
  rw [logStep_eq hlog]
  simp only [bindStep_ok]
  refine ⟨_, rfl, ?_, ?_, ?_⟩
  · show countCalls "Critic-Medical" t.trace
      = countCalls "Critic-Medical" s.trace + s.maxRevisions
    have h := hc1
    have h' : countCalls "Critic-Medical" t.trace
        = countCalls "Critic-Medical" s.trace + (s.maxRevisions - s.revisionCount) := h
    omega
  · show countCalls "Revision-Writer" t.trace
      = countCalls "Revision-Writer" s.trace + s.maxRevisions
    have h := hc2
    have h' : countCalls "Revision-Writer" t.trace
        = countCalls "Revision-Writer" s.trace + (s.maxRevisions - s.revisionCount) := h
    omega
  · exact hrc

/-- C2 witness: at `envNeverApprove` (critics always reject, revisions always
succeed, no debug callback) and `stateLoopStart` (`maxRevisions = 2`,
`revisionCount = 0`), the loop performs exactly 2 critique iterations and 2
revisions and returns success. -/
theorem critique_loop_runs_maxRevisions_witness :
    stateLoopStart.revisionCount = 0 ∧
    ∃ s', runCritiqueLoop envNeverApprove stateLoopStart = (.ok true, s')
      ∧ countCalls "Critic-Medical" s'.trace
          = countCalls "Critic-Medical" stateLoopStart.trace + stateLoopStart.maxRevisions
      ∧ countCalls "Revision-Writer" s'.trace
          = countCalls "Revision-Writer" stateLoopStart.trace + stateLoopStart.maxRevisions
      ∧ s'.revisionCount = stateLoopStart.maxRevisions :=
  ⟨rfl, @critique_loop_runs_maxRevisions envNeverApprove (fun f h => nomatch h)
      (fun _ => rfl) (fun _ _ => ⟨_, rfl⟩) stateLoopStart rfl⟩
